import Mathlib

/-!
# OptixCSP: geometry, bounding boxes and scene lifecycle

A shallow embedding of the host-side code of OptixCSP.

Numbers. The program computes in `float` and `double`.  A float value is
modelled by `FloatVal K`: a number of an ordered field `K`, or one of the
special values `+inf`, `-inf`, `NaN`.  Every float operation `+`, `*`, `/` on
two numbers computes the exact result and rounds it once with the rounding of
the float format, `FloatFormat.round`, which may also overflow to an infinity
or underflow to zero; the special values follow IEEE 754, so that a division
by zero is a total operation that yields an infinity or `NaN`, as it does in
the program.  The format of the program's `float` is IEEE 754 binary32 with
round-to-nearest-even; it is the format `binary32` on `ℚ`.  Theorems that are
stated for an arbitrary `FloatFormat` hold whatever the rounding is.  The
`double` side (`Vec3d`) is exact.  All definitions are computable when `K` is
`ℚ`.
-/

namespace OptixCSP

/-! ## Float values -/

/-- A float value: a number, an infinity, or `NaN`. -/
inductive FloatVal (K : Type) where
  | num (q : K)
  | pinf
  | ninf
  | nan
deriving DecidableEq, Repr

/-- The float format: `round` takes the exact result of an operation on two numbers to the
float that the operation returns (a number of the format, or an infinity on overflow). -/
class FloatFormat (K : Type) where
  round : K → FloatVal K

namespace FloatVal

variable {K : Type} [LinearOrderedField K] [FloatFormat K]

/-- The product `a * (+inf)` for a number `a`: `NaN` for zero, else the infinity with the sign of `a`. -/
def ofSign (a : K) : FloatVal K :=
  if a = 0 then nan else if 0 < a then pinf else ninf

/-- IEEE addition: the exact sum of two numbers, rounded. -/
def add : FloatVal K → FloatVal K → FloatVal K
  | num a, num b => FloatFormat.round (a + b)
  | num _, pinf => pinf
  | num _, ninf => ninf
  | pinf, num _ => pinf
  | ninf, num _ => ninf
  | pinf, pinf => pinf
  | ninf, ninf => ninf
  | pinf, ninf => nan
  | ninf, pinf => nan
  | nan, _ => nan
  | _, nan => nan

/-- IEEE multiplication: the exact product of two numbers, rounded. -/
def mul : FloatVal K → FloatVal K → FloatVal K
  | num a, num b => FloatFormat.round (a * b)
  | num a, pinf => ofSign a
  | num a, ninf => ofSign (-a)
  | pinf, num b => ofSign b
  | ninf, num b => ofSign (-b)
  | pinf, pinf => pinf
  | ninf, ninf => pinf
  | pinf, ninf => ninf
  | ninf, pinf => ninf
  | nan, _ => nan
  | _, nan => nan

/-- IEEE division: the exact quotient of two numbers, rounded; a zero divisor is taken as
`+0` (the divisors of the program are dot products `dot(v, v)`, which are never `-0`). -/
def div : FloatVal K → FloatVal K → FloatVal K
  | num a, num b => if b = 0 then ofSign a else FloatFormat.round (a / b)
  | num _, pinf => num 0
  | num _, ninf => num 0
  | pinf, num b => if 0 ≤ b then pinf else ninf
  | ninf, num b => if 0 ≤ b then ninf else pinf
  | pinf, pinf => nan
  | ninf, ninf => nan
  | pinf, ninf => nan
  | ninf, pinf => nan
  | nan, _ => nan
  | _, nan => nan

instance : Add (FloatVal K) := ⟨add⟩
instance : Mul (FloatVal K) := ⟨mul⟩
instance : Div (FloatVal K) := ⟨div⟩

/-- The C function `fminf`: the smaller argument; if one argument is `NaN`, the other. -/
def fminf : FloatVal K → FloatVal K → FloatVal K
  | nan, y => y
  | x, nan => x
  | num a, num b => num (min a b)
  | ninf, _ => ninf
  | _, ninf => ninf
  | pinf, y => y
  | x, pinf => x

/-- The C function `fmaxf`: the larger argument; if one argument is `NaN`, the other. -/
def fmaxf : FloatVal K → FloatVal K → FloatVal K
  | nan, y => y
  | x, nan => x
  | num a, num b => num (max a b)
  | pinf, _ => pinf
  | _, pinf => pinf
  | ninf, y => y
  | x, ninf => x

/-- The comparison `<=` of floats: false as soon as one side is `NaN`. -/
def le : FloatVal K → FloatVal K → Prop
  | num a, num b => a ≤ b
  | nan, _ => False
  | _, nan => False
  | ninf, _ => True
  | _, pinf => True
  | pinf, _ => False
  | _, ninf => False

instance : LE (FloatVal K) := ⟨le⟩

instance decLe (a b : FloatVal K) : Decidable (a ≤ b) := by
  cases a <;> cases b <;> simp only [LE.le, le] <;> infer_instance

/-- The value is not `NaN`. -/
def isOrdered : FloatVal K → Bool
  | nan => false
  | _ => true

/-- The value is a number (neither an infinity nor `NaN`). -/
def isFinite : FloatVal K → Bool
  | num _ => true
  | _ => false

end FloatVal

/-! ## The format binary32 -/

/-- The power `2 ^ e` for an integer exponent `e`. -/
def pow2 (e : Int) : ℚ :=
  if 0 ≤ e then ((2 ^ e.toNat : Nat) : ℚ) else 1 / ((2 ^ (-e).toNat : Nat) : ℚ)

/-- The number of halvings that take `n` below 2, at most `fuel` of them: with `fuel = n`,
the number of binary digits of `n` less one. -/
def log2_loop : Nat → Nat → Nat
  | 0, _ => 0
  | fuel + 1, n => if 2 ≤ n then log2_loop fuel (n / 2) + 1 else 0

/-- The binary exponent of a positive number `a`: the integer `k` with `2 ^ k ≤ a < 2 ^ (k + 1)`;
it is the difference of the digit counts of numerator and denominator, or one less. -/
def ilog2 (a : ℚ) : Int :=
  let n := a.num.natAbs
  let k : Int := (log2_loop n n : Int) - (log2_loop a.den a.den : Int)
  if pow2 k ≤ a then k else k - 1

/-- The integer nearest to a number `x ≥ 0`; of two nearest integers, the even one. -/
def roundNearestEven (x : ℚ) : Int :=
  let m : Int := x.num / x.den
  let f : ℚ := x - m
  if f < 1 / 2 then m else if 1 / 2 < f then m + 1 else if m % 2 = 0 then m else m + 1

/-- Rounding to IEEE 754 binary32, round-to-nearest-even: a number of magnitude `a` is rounded
to a multiple of `2 ^ e`, where `e` is the binary exponent of `a` less the 23 fraction bits and
at least `-149` (the subnormal range, where small results underflow, to zero at last); a result
of magnitude `2 ^ 128` or more overflows to an infinity. -/
def binary32_round (q : ℚ) : FloatVal ℚ :=
  if q = 0 then FloatVal.num 0
  else
    let a := |q|
    let e := max (ilog2 a - 23) (-149)
    let r : ℚ := (roundNearestEven (a / pow2 e) : ℚ) * pow2 e
    if pow2 128 ≤ r then (if 0 < q then FloatVal.pinf else FloatVal.ninf)
    else FloatVal.num (if 0 < q then r else -r)

/-- The format of the program's type `float`. -/
instance binary32 : FloatFormat ℚ := ⟨binary32_round⟩

/-! ## `float3` and `OptixAabb` -/

/-- The CUDA vector type `float3`. -/
structure float3 (K : Type) where
  x : FloatVal K
  y : FloatVal K
  z : FloatVal K
deriving DecidableEq, Repr

/-- The box type `OptixAabb`. -/
structure OptixAabb (K : Type) where
  minX : FloatVal K
  minY : FloatVal K
  minZ : FloatVal K
  maxX : FloatVal K
  maxY : FloatVal K
  maxZ : FloatVal K
deriving DecidableEq, Repr

section Float3Ops

variable {K : Type} [LinearOrderedField K] [FloatFormat K]

/-- The constructor `make_float3` at three numbers. -/
def make_float3 (x y z : K) : float3 K :=
  ⟨FloatVal.num x, FloatVal.num y, FloatVal.num z⟩

/-- The dot product `dot(a, b)` of `vec_math.h`. -/
def dot (a b : float3 K) : FloatVal K :=
  a.x * b.x + a.y * b.y + a.z * b.z

/-- The operator `float3 + float3`. -/
def float3.add (a b : float3 K) : float3 K :=
  ⟨a.x + b.x, a.y + b.y, a.z + b.z⟩

/-- The operator `float3 / float` of vec_math.h (a library header, not among the sources):
each component is divided by `s`. -/
def float3.divs (a : float3 K) (s : FloatVal K) : float3 K :=
  ⟨a.x / s, a.y / s, a.z / s⟩

/-- The operator `float3 / float` where a vector library computes it through the reciprocal,
`inv = 1.0f / s` and then `a * inv`.  The program is embedded with `float3.divs`; this variant
serves to check that the examples of rounding below do not depend on the choice. -/
def float3.divs_reciprocal (a : float3 K) (s : FloatVal K) : float3 K :=
  ⟨a.x * (FloatVal.num 1 / s), a.y * (FloatVal.num 1 / s), a.z * (FloatVal.num 1 / s)⟩

/-- The operator `float * float3`. -/
def float3.smul (s : FloatVal K) (a : float3 K) : float3 K :=
  ⟨s * a.x, s * a.y, s * a.z⟩

instance : Add (float3 K) := ⟨float3.add⟩

/-- The componentwise `fminf(float3, float3)`. -/
def float3.fminf (a b : float3 K) : float3 K :=
  ⟨FloatVal.fminf a.x b.x, FloatVal.fminf a.y b.y, FloatVal.fminf a.z b.z⟩

/-- The componentwise `fmaxf(float3, float3)`. -/
def float3.fmaxf (a b : float3 K) : float3 K :=
  ⟨FloatVal.fmaxf a.x b.x, FloatVal.fmaxf a.y b.y, FloatVal.fmaxf a.z b.z⟩

/-- All three components are numbers. -/
def float3.isFinite (a : float3 K) : Bool :=
  a.x.isFinite && a.y.isFinite && a.z.isFinite

/-- No component is `NaN`. -/
def float3.isOrdered (a : float3 K) : Bool :=
  a.x.isOrdered && a.y.isOrdered && a.z.isOrdered

/-- No bound of the box is `NaN`. -/
def OptixAabb.isOrdered (b : OptixAabb K) : Bool :=
  b.minX.isOrdered && b.minY.isOrdered && b.minZ.isOrdered &&
    b.maxX.isOrdered && b.maxY.isOrdered && b.maxZ.isOrdered

/-- The box `b` lies in the box `s`: each minimum of `s` is `<=` that of `b` and each maximum
of `s` is `>=` that of `b`. -/
def OptixAabb.encloses (s b : OptixAabb K) : Prop :=
  s.minX ≤ b.minX ∧ s.minY ≤ b.minY ∧ s.minZ ≤ b.minZ ∧
    b.maxX ≤ s.maxX ∧ b.maxY ≤ s.maxY ∧ b.maxZ ≤ s.maxZ

/-- The point `p` lies in the box `b`, componentwise (`min <= p` and `p <= max`). -/
def OptixAabb.contains (b : OptixAabb K) (p : float3 K) : Prop :=
  b.minX ≤ p.x ∧ p.x ≤ b.maxX ∧ b.minY ≤ p.y ∧ p.y ≤ b.maxY ∧ b.minZ ≤ p.z ∧ p.z ≤ b.maxZ

instance (b : OptixAabb K) (p : float3 K) : Decidable (b.contains p) := by
  unfold OptixAabb.contains; infer_instance

/-- The rescaled edge `v / dot(v, v)` of `parallelogram_bound`. -/
def rescale (v : float3 K) : float3 K :=
  v.divs (dot v v)

/-- The rescaled edge `v / dot(v, v)` of the vector `v = (a, b, c)` in exact arithmetic. -/
def rescale_exact (a b c : K) : float3 K :=
  make_float3 (a / (a * a + b * b + c * c)) (b / (a * a + b * b + c * c))
    (c / (a * a + b * b + c * c))

/-- The two rescalings of the vector `v = (a, b, c)` are free of rounding error: the rescaled
edge that the program computes for `v` is the exact one, `tv`, and the rescaled edge that it
computes for `tv` is the exact one as well. -/
def rescaled_exactly (a b c : K) : Prop :=
  rescale (make_float3 a b c) = rescale_exact a b c ∧
  rescale (rescale_exact a b c)
    = rescale_exact (a / (a * a + b * b + c * c)) (b / (a * a + b * b + c * c))
        (c / (a * a + b * b + c * c))

instance (a b c : K) : Decidable (rescaled_exactly a b c) := by
  unfold rescaled_exactly; infer_instance

/-- The point of the quadrilateral with the corners `p00`, `p01`, `p10`, `p11` at the
parameters `s` (from `p00` towards `p01`) and `t` (from `p00` towards `p10`), for one
coordinate, in exact arithmetic. -/
def bilinear (s t p00 p01 p10 p11 : K) : K :=
  (1 - s) * (1 - t) * p00 + s * (1 - t) * p01 + (1 - s) * t * p10 + s * t * p11

/-- The function `parallelogram_bound` of optixSoltraceDemo.cpp. -/
def parallelogram_bound (v1 v2 anchor : float3 K) : OptixAabb K :=
  let tv1 := v1.divs (dot v1 v1)
  let tv2 := v2.divs (dot v2 v2)
  let p00 := anchor
  let p01 := anchor + tv1
  let p10 := anchor + tv2
  let p11 := anchor + tv1 + tv2
  let m_min := (p00.fminf p01).fminf (p10.fminf p11)
  let m_max := (p00.fmaxf p01).fmaxf (p10.fmaxf p11)
  ⟨m_min.x, m_min.y, m_min.z, m_max.x, m_max.y, m_max.z⟩

/-! ## Scene geometry of optixSoltraceDemo.cpp -/

/-- The fields of a `GeometryData::Parallelogram` object that `createGeometry` reads. -/
structure Parallelogram (K : Type) where
  v1 : float3 K
  v2 : float3 K
  anchor : float3 K
deriving DecidableEq, Repr

/-- The constant `OBJ_COUNT`. -/
def OBJ_COUNT : Nat := 4

/-- The array `aabb[OBJ_COUNT]` of `createGeometry`, for the four scene objects
`heliostat1`, `heliostat2`, `heliostat3` and `receiver`. -/
def createGeometry_aabb (heliostat1 heliostat2 heliostat3 receiver : Parallelogram K) :
    List (OptixAabb K) :=
  [ parallelogram_bound heliostat1.v1 heliostat1.v2 heliostat1.anchor,
    parallelogram_bound heliostat2.v1 heliostat2.v2 heliostat2.anchor,
    parallelogram_bound heliostat3.v1 heliostat3.v2 heliostat3.anchor,
    parallelogram_bound receiver.v1 receiver.v2 receiver.anchor ]

/-- One pass of the loop body of `createGeometry`: fold the box `aabb[i]` into the
overall minimum and maximum. -/
def createGeometry_step (acc : float3 K × float3 K) (cur : OptixAabb K) : float3 K × float3 K :=
  let currentMin : float3 K := ⟨cur.minX, cur.minY, cur.minZ⟩
  let currentMax : float3 K := ⟨cur.maxX, cur.maxY, cur.maxZ⟩
  (acc.1.fminf currentMin, acc.2.fmaxf currentMax)

/-- The value that `createGeometry` stores in `state.params.scene_aabb`, for an array `aabb`:
the overall bounds start at `aabb[0]` and the loop runs over `i = 1, ..., OBJ_COUNT - 1`. -/
def scene_aabb_of (aabb : List (OptixAabb K)) : OptixAabb K :=
  let first := aabb.getD 0 ⟨.nan, .nan, .nan, .nan, .nan, .nan⟩
  let overallMin : float3 K := ⟨first.minX, first.minY, first.minZ⟩
  let overallMax : float3 K := ⟨first.maxX, first.maxY, first.maxZ⟩
  let r := ((aabb.take OBJ_COUNT).drop 1).foldl createGeometry_step (overallMin, overallMax)
  ⟨r.1.x, r.1.y, r.1.z, r.2.x, r.2.y, r.2.z⟩

/-- The function `createGeometry`, as far as the host computes: the aggregate `scene_aabb`. -/
def createGeometry (heliostat1 heliostat2 heliostat3 receiver : Parallelogram K) : OptixAabb K :=
  scene_aabb_of (createGeometry_aabb heliostat1 heliostat2 heliostat3 receiver)

end Float3Ops

/-! ## Core value types (src/core) -/

/-- The vector type `Vec3d` (three `double` components, as exact numbers). -/
structure Vec3d (K : Type) where
  x : K
  y : K
  z : K
deriving DecidableEq, Repr

/-- The matrix type `Matrix33d`, given by its three columns. -/
structure Matrix33d (K : Type) where
  col0 : Vec3d K
  col1 : Vec3d K
  col2 : Vec3d K
deriving DecidableEq, Repr

/-- Modelled from the spec: the enum `SurfaceType` of soltrace_type.h, which is not among the
sources; Surface.h uses its tags `FLAT`, `PARABOLIC` and `CYLINDER`, one for each shape
variant of section 2. -/
inductive SurfaceType where
  | FLAT
  | PARABOLIC
  | CYLINDER
deriving DecidableEq, Repr

/-- The classes of Surface.h: `SurfaceParabolic` (members `m_c1`, `m_c2`), `SurfaceFlat`,
and `SurfaceCylinder` (members `m_radius`, `m_half_height`). -/
inductive Surface (K : Type) where
  | SurfaceParabolic (m_c1 m_c2 : K)
  | SurfaceFlat
  | SurfaceCylinder (m_radius m_half_height : K)
deriving DecidableEq, Repr

/-- Modelled from the spec: the class `ApertureRectangle(dim_x, dim_y)` of Aperture.h, which is
not among the sources; section 4.2 gives its local bounds. -/
inductive Aperture (K : Type) where
  | ApertureRectangle (dim_x dim_y : K)
deriving DecidableEq, Repr

/-- The class `CspElement` of CspElement.h with the member `m_receiver` of its base class.  The
members are those of the header; the two last fields are the validity of the derived state. -/
structure CspElement (K : Type) where
  m_receiver : Bool
  m_origin : Vec3d K
  m_aim_point : Vec3d K
  m_euler_angles : Vec3d K
  m_zrot : K
  m_upper_box_bound : Vec3d K
  m_lower_box_bound : Vec3d K
  m_surface : Option (Surface K)
  m_aperture : Option (Aperture K)
  m_reflectivity : K
  m_transmissivity : K
  m_slope_error : K
  m_specularity_error : K
  m_use_refraction : Bool
  /-- Modelled from the spec: the cached rotation matrix of section 3 (the header declares no
  such member); `none` while the orientation is invalidated. -/
  m_rotation : Option (Matrix33d K)
  /-- Modelled from the spec: whether the two cached box bounds are valid (section 4.3). -/
  m_box_valid : Bool
deriving DecidableEq, Repr

/-- The error taxonomy of section 7 of the specification. -/
inductive Error where
  | ConfigurationError
  | DegenerateDirection
  | InvalidScene
  | NotInitialized
  | EngineError
deriving DecidableEq, Repr

/-- Modelled from the spec: the numeric primitives that utils/math_util.h provides and the two
tolerances of section 4.3, none of which is among the sources.  `sqrt` is the square root,
`cos_deg` and `sin_deg` are cosine and sine of an angle in degrees, `epsilon` is the threshold
of the degenerate direction, `parallel_tol` the tolerance of the test against global +y, and
`euler_of` the fixed convention that reads Euler angles off a rotation matrix. -/
structure MathUtil (K : Type) where
  sqrt : K → K
  cos_deg : K → K
  sin_deg : K → K
  epsilon : K
  parallel_tol : K
  euler_of : Matrix33d K → Vec3d K

section VecOps

variable {K : Type} [LinearOrderedField K]

/-- The sum of two vectors. -/
def Vec3d.add (a b : Vec3d K) : Vec3d K := ⟨a.x + b.x, a.y + b.y, a.z + b.z⟩

/-- The difference of two vectors. -/
def Vec3d.sub (a b : Vec3d K) : Vec3d K := ⟨a.x - b.x, a.y - b.y, a.z - b.z⟩

/-- The product of a scalar and a vector. -/
def Vec3d.smul (s : K) (a : Vec3d K) : Vec3d K := ⟨s * a.x, s * a.y, s * a.z⟩

/-- The dot product. -/
def Vec3d.dot (a b : Vec3d K) : K := a.x * b.x + a.y * b.y + a.z * b.z

/-- The cross product. -/
def Vec3d.cross (a b : Vec3d K) : Vec3d K :=
  ⟨a.y * b.z - a.z * b.y, a.z * b.x - a.x * b.z, a.x * b.y - a.y * b.x⟩

/-- The length of a vector, with the square root of `M`. -/
def Vec3d.norm (M : MathUtil K) (a : Vec3d K) : K := M.sqrt (a.dot a)

/-- The vector divided by its length. -/
def Vec3d.normalized (M : MathUtil K) (a : Vec3d K) : Vec3d K :=
  ⟨a.x / a.norm M, a.y / a.norm M, a.z / a.norm M⟩

/-- The product of a matrix and a vector. -/
def Matrix33d.mulVec (R : Matrix33d K) (p : Vec3d K) : Vec3d K :=
  ((Vec3d.smul p.x R.col0).add (Vec3d.smul p.y R.col1)).add (Vec3d.smul p.z R.col2)

/-- The product of the transposed matrix and a vector. -/
def Matrix33d.transposeMulVec (R : Matrix33d K) (p : Vec3d K) : Vec3d K :=
  ⟨R.col0.dot p, R.col1.dot p, R.col2.dot p⟩

/-- The determinant of a matrix. -/
def Matrix33d.det (R : Matrix33d K) : K := R.col0.dot (R.col1.cross R.col2)

/-- The three columns have unit length, are mutually orthogonal, and the determinant is +1. -/
def Matrix33d.IsOrthonormal (R : Matrix33d K) : Prop :=
  R.col0.dot R.col0 = 1 ∧ R.col1.dot R.col1 = 1 ∧ R.col2.dot R.col2 = 1 ∧
  R.col0.dot R.col1 = 0 ∧ R.col0.dot R.col2 = 0 ∧ R.col1.dot R.col2 = 0 ∧ R.det = 1

instance (R : Matrix33d K) : Decidable R.IsOrthonormal := by
  unfold Matrix33d.IsOrthonormal; infer_instance

/-! ## Orientation (section 4.3) -/

/-- Modelled from the spec: the reference up-vector of step 3 of section 4.3, global +y, or the
fallback axis global +x when the unit direction `d` is within `parallel_tol` of being parallel
to +y. -/
def up_reference (M : MathUtil K) (d : Vec3d K) : Vec3d K :=
  if 1 - M.parallel_tol ≤ |d.y| then ⟨1, 0, 0⟩ else ⟨0, 1, 0⟩

/-- Modelled from the spec: the initial local x axis of step 3, the normalized cross product of
the reference up-vector and `d`. -/
def initial_x (M : MathUtil K) (d : Vec3d K) : Vec3d K :=
  ((up_reference M d).cross d).normalized M

/-- Modelled from the spec: the orientation algorithm of section 4.3, whose implementation
(CspElement.cpp, utils/math_util.h) is not among the sources.  Step 1: `d = normalize(A - O)`,
failing with `DegenerateDirection` if `|A - O| < epsilon`; step 2: local +z is `d`; step 3: the
initial local x, y pair by cross products against `d`; step 4: the pair is rotated by `zrot`
degrees about `d`; step 5: the matrix has the columns (local_x, local_y, d). -/
def derive_orientation (M : MathUtil K) (origin aim_point : Vec3d K) (zrot : K) :
    Except Error (Matrix33d K) :=
  let v := aim_point.sub origin
  if v.norm M < M.epsilon then Except.error Error.DegenerateDirection
  else
    let d := v.normalized M
    let x0 := initial_x M d
    let y0 := d.cross x0
    let c := M.cos_deg zrot
    let s := M.sin_deg zrot
    let local_x := (Vec3d.smul c x0).add (Vec3d.smul s y0)
    let local_y := (Vec3d.smul (-s) x0).add (Vec3d.smul c y0)
    Except.ok ⟨local_x, local_y, d⟩

/-- The numeric primitives of `M` are exact where the orientation of (origin, aim_point, zrot)
uses them: the tolerances are sensible (`0 < epsilon`, `0 ≤ parallel_tol < 1`), the square root
is exact at the two squared lengths that are normalized, and cosine and sine of `zrot` lie on
the unit circle. -/
def MathUtil.ExactFor (M : MathUtil K) (origin aim_point : Vec3d K) (zrot : K) : Prop :=
  let v := aim_point.sub origin
  let w := (up_reference M (v.normalized M)).cross (v.normalized M)
  0 < M.epsilon ∧ 0 ≤ M.parallel_tol ∧ M.parallel_tol < 1 ∧
  v.norm M * v.norm M = v.dot v ∧
  w.norm M * w.norm M = w.dot w ∧
  M.cos_deg zrot * M.cos_deg zrot + M.sin_deg zrot * M.sin_deg zrot = 1

/-! ## Bounding box of an element (section 4.4) -/

/-- Modelled from the spec: the extremal local-frame points of the aperture footprint
(section 4.4), the four corners of a rectangle; without an aperture, the local origin. -/
def footprint : Option (Aperture K) → List (K × K)
  | some (Aperture.ApertureRectangle dim_x dim_y) =>
      [(-(dim_x / 2), -(dim_y / 2)), (dim_x / 2, -(dim_y / 2)),
       (-(dim_x / 2), dim_y / 2), (dim_x / 2, dim_y / 2)]
  | none => [(0, 0)]

/-- Modelled from the spec: the local-z extent of the surface at a footprint point
(section 4.4): zero for a flat surface, from zero to the sag `c1 x^2 + c2 y^2` for a parabolic
one, plus and minus the half-height for a cylinder. -/
def z_extent : Option (Surface K) → K × K → List K
  | some (Surface.SurfaceParabolic c1 c2), (x, y) => [0, c1 * (x * x) + c2 * (y * y)]
  | some (Surface.SurfaceCylinder _ half_height), _ => [-half_height, half_height]
  | some Surface.SurfaceFlat, _ => [0]
  | none, _ => [0]

/-- Modelled from the spec: the local points that the bounding box of section 4.4 covers. -/
def local_extremal_points (surface : Option (Surface K)) (aperture : Option (Aperture K)) :
    List (Vec3d K) :=
  (footprint aperture).flatMap fun q => (z_extent surface q).map fun z => ⟨q.1, q.2, z⟩

/-- The componentwise minimum of two vectors. -/
def Vec3d.min (a b : Vec3d K) : Vec3d K := ⟨Min.min a.x b.x, Min.min a.y b.y, Min.min a.z b.z⟩

/-- The componentwise maximum of two vectors. -/
def Vec3d.max (a b : Vec3d K) : Vec3d K := ⟨Max.max a.x b.x, Max.max a.y b.y, Max.max a.z b.z⟩

/-- Modelled from the spec: the bounding-box computation of section 4.4, as the pair (lower,
upper): every local extremal point is transformed by `rotation_matrix * local_point + origin`
and the results are reduced componentwise.  It is a total function. -/
def bounding_box (R : Matrix33d K) (origin : Vec3d K) (surface : Option (Surface K))
    (aperture : Option (Aperture K)) : Vec3d K × Vec3d K :=
  let pts := (local_extremal_points surface aperture).map fun q => (R.mulVec q).add origin
  match pts with
  | [] => (origin, origin)
  | p :: rest => (rest.foldl Vec3d.min p, rest.foldl Vec3d.max p)

/-! ## The element (CspElement.h) -/

/-- Modelled from the spec: `CspElement::set_origin`; a setter of an input invalidates the cached
orientation and bounding box (section 4.3).  The body is not among the sources, and the header
declares no validity state: the invalidation is the specification's, not read off the code. -/
def CspElement.set_origin (e : CspElement K) (o : Vec3d K) : CspElement K :=
  { e with m_origin := o, m_rotation := none, m_box_valid := false }

/-- Modelled from the spec: `CspElement::set_aim_point`, which invalidates the derived state
(as the specification says; the body is not among the sources). -/
def CspElement.set_aim_point (e : CspElement K) (a : Vec3d K) : CspElement K :=
  { e with m_aim_point := a, m_rotation := none, m_box_valid := false }

/-- Modelled from the spec: `CspElement::set_zrot`, which invalidates the derived state
(as the specification says; the body is not among the sources). -/
def CspElement.set_zrot (e : CspElement K) (zrot : K) : CspElement K :=
  { e with m_zrot := zrot, m_rotation := none, m_box_valid := false }

/-- Modelled from the spec: `CspElement::set_surface`; the surface is an input of the box, which
is invalidated. -/
def CspElement.set_surface (e : CspElement K) (surface : Surface K) : CspElement K :=
  { e with m_surface := some surface, m_box_valid := false }

/-- Modelled from the spec: `CspElement::set_aperture`; the aperture is an input of the box,
which is invalidated. -/
def CspElement.set_aperture (e : CspElement K) (aperture : Aperture K) : CspElement K :=
  { e with m_aperture := some aperture, m_box_valid := false }

/-- Modelled from the spec: the constructor `CspElement()`, whose body is not among the sources
and for which the specification fixes no defaults: every number is zero, there is no surface
and no aperture, the element is not a receiver, and no derived state is valid. -/
def CspElement.new : CspElement K :=
  { m_receiver := false, m_origin := ⟨0, 0, 0⟩, m_aim_point := ⟨0, 0, 0⟩,
    m_euler_angles := ⟨0, 0, 0⟩, m_zrot := 0, m_upper_box_bound := ⟨0, 0, 0⟩,
    m_lower_box_bound := ⟨0, 0, 0⟩, m_surface := none, m_aperture := none,
    m_reflectivity := 0, m_transmissivity := 0, m_slope_error := 0, m_specularity_error := 0,
    m_use_refraction := false, m_rotation := none, m_box_valid := false }

/-- The inline setter `set_receiver` of CspElement.h. -/
def CspElement.set_receiver (e : CspElement K) (val : Bool) : CspElement K :=
  { e with m_receiver := val }

/-- The inline getter `is_receiver` of CspElement.h. -/
def CspElement.is_receiver (e : CspElement K) : Bool := e.m_receiver

/-- Modelled from the spec: `CspElement::update_euler_angles()`, which derives the orientation
from the element's own origin, aim point and zrot by the algorithm of section 4.3 and stores
it; the Euler angles are read off the matrix.  The box, which depends on the orientation, is
invalidated. -/
def CspElement.update_euler_angles (M : MathUtil K) (e : CspElement K) :
    Except Error (CspElement K) :=
  match derive_orientation M e.m_origin e.m_aim_point e.m_zrot with
  | Except.error err => Except.error err
  | Except.ok R =>
      Except.ok { e with m_rotation := some R, m_euler_angles := M.euler_of R,
                         m_box_valid := false }

/-- Modelled from the spec: `CspElement::get_rotation_matrix()`, the local-to-global matrix: the
cached one, or, after an invalidation, the one recomputed from the current inputs. -/
def CspElement.get_rotation_matrix (M : MathUtil K) (e : CspElement K) :
    Except Error (Matrix33d K) :=
  match e.m_rotation with
  | some R => Except.ok R
  | none => derive_orientation M e.m_origin e.m_aim_point e.m_zrot

/-- Modelled from the spec: `CspElement::compute_bounding_box()`, which caches the box
of section 4.4 for the cached orientation; it never fails, and without a valid orientation
it leaves the element as it is. -/
def CspElement.compute_bounding_box (e : CspElement K) : CspElement K :=
  match e.m_rotation with
  | some R =>
      let box := bounding_box R e.m_origin e.m_surface e.m_aperture
      { e with m_lower_box_bound := box.1, m_upper_box_bound := box.2, m_box_valid := true }
  | none => e

/-- Modelled from the spec: `CspElement::update_element(aim_point, zrot)`, which sets the two
inputs and recomputes orientation and box. -/
def CspElement.update_element (M : MathUtil K) (e : CspElement K) (aim_point : Vec3d K)
    (zrot : K) : Except Error (CspElement K) :=
  (((e.set_aim_point aim_point).set_zrot zrot).update_euler_angles M).map
    CspElement.compute_bounding_box

/-- Modelled from the spec: the containment predicate of a rectangle aperture over local
`(x, y)` (section 4.2): `|x| ≤ dim_x/2` and `|y| ≤ dim_y/2`. -/
def Aperture.contains : Aperture K → K → K → Bool
  | Aperture.ApertureRectangle dim_x dim_y, x, y =>
      decide (|x| ≤ dim_x / 2) && decide (|y| ≤ dim_y / 2)

/-- The coordinates of the global point `p` in the local frame of rotation `R` and origin `O`. -/
def to_local (R : Matrix33d K) (origin p : Vec3d K) : Vec3d K :=
  R.transposeMulVec (p.sub origin)

/-- The global point of the local point `q`: `rotation_matrix * q + origin` (section 4.4). -/
def to_global (R : Matrix33d K) (origin q : Vec3d K) : Vec3d K :=
  (R.mulVec q).add origin

/-- Modelled from the spec: `CspElement::in_plane(point)` (section 4.2), which projects the point
into the element's local frame and tests the resulting `(x, y)` against the aperture. -/
def CspElement.in_plane (M : MathUtil K) (e : CspElement K) (point : Vec3d K) :
    Except Error Bool :=
  match e.get_rotation_matrix M with
  | Except.error err => Except.error err
  | Except.ok R =>
      match e.m_aperture with
      | none => Except.error Error.ConfigurationError
      | some a =>
          Except.ok (a.contains (to_local R e.m_origin point).x (to_local R e.m_origin point).y)

end VecOps

/-! ## Example data -/

/-- Numeric primitives over `ℚ` that are exact at the arguments of the axis-aligned examples:
`sqrt 100 = 10`, `sqrt 1 = 1`, `sqrt 4 = 2`, and cosine and sine at the angles 0, 90, 180 and
-90 degrees. -/
def table_math : MathUtil ℚ :=
  { sqrt := fun x => if x = 100 then 10 else if x = 4 then 2 else if x = 1 then 1 else 0,
    cos_deg := fun a => if a = 0 then 1 else if a = 180 then -1 else 0,
    sin_deg := fun a => if a = 90 then 1 else if a = -90 then -1 else 0,
    epsilon := 1 / 1000000,
    parallel_tol := 1 / 1000000,
    euler_of := fun _ => ⟨0, 0, 0⟩ }

/-- The element `e1` of demo_parabolic_surface.cpp: origin (0,0,0), aim point (0,0,10), a
parabolic surface of curvatures 0.05 and an aperture of 1 by 1. -/
def demo_e1 : CspElement ℚ :=
  (((CspElement.new.set_origin ⟨0, 0, 0⟩).set_aim_point ⟨0, 0, 10⟩).set_surface
    (Surface.SurfaceParabolic (5 / 100) (5 / 100))).set_aperture (Aperture.ApertureRectangle 1 1)

/-- A receiver as in demo_dynamic_scene.cpp, with the aperture `ApertureRectangle(2.0, 4.0)` and
a flat surface, placed on the z axis: origin (0,0,0), aim point (0,0,10), zrot 0. -/
def demo_receiver : CspElement ℚ :=
  ((((CspElement.new.set_origin ⟨0, 0, 0⟩).set_aim_point ⟨0, 0, 10⟩).set_zrot 0).set_aperture
    (Aperture.ApertureRectangle 2 4)).set_surface Surface.SurfaceFlat

/-! ## The scene controller (section 4.5) -/

/-- The lifecycle states of section 4.5. -/
inductive Lifecycle where
  | Uninitialized
  | Initialized
  | CleanedUp
deriving DecidableEq, Repr

/-- Modelled from the spec: the class `SolTraceSystem` of core/soltrace_system.h, which is not
among the sources: the ordered elements, the sun parameters, the requested ray count, the
lifecycle state, the cached scene box, and the hit sequences of the last `run()` (`none` when
there are none or `update()` invalidated them). -/
structure SolTraceSystem (K : Type) where
  m_num_sunpoints : Nat
  m_element_list : List (CspElement K)
  m_sun_vector : Vec3d K
  m_sun_angle : K
  state : Lifecycle
  scene_box : Option (Vec3d K × Vec3d K)
  results : Option (List (List (Vec3d K)))

/-- Modelled from the spec: the external ray-tracing engine of section 6, seen through its
result: for the elements in scene order, the sun vector, the sun angle and the ray count, the
hit sequence of every ray, or `none` when the engine fails. -/
structure Engine (K : Type) where
  trace : List (CspElement K) → Vec3d K → K → Nat → Option (List (List (Vec3d K)))

section Scene

variable {K : Type} [LinearOrderedField K]

/-- Modelled from the spec: the constructor `SolTraceSystem(num_rays)`: no element, state
`Uninitialized`. -/
def SolTraceSystem.new (num_rays : Nat) : SolTraceSystem K :=
  { m_num_sunpoints := num_rays, m_element_list := [], m_sun_vector := ⟨0, 0, 1⟩,
    m_sun_angle := 0, state := Lifecycle.Uninitialized, scene_box := none, results := none }

/-- Modelled from the spec: `add_element(e)` appends to the ordered collection. -/
def SolTraceSystem.add_element (s : SolTraceSystem K) (e : CspElement K) : SolTraceSystem K :=
  { s with m_element_list := s.m_element_list ++ [e] }

/-- Modelled from the spec: `set_sun_vector(v)`. -/
def SolTraceSystem.set_sun_vector (s : SolTraceSystem K) (v : Vec3d K) : SolTraceSystem K :=
  { s with m_sun_vector := v }

/-- Modelled from the spec: `set_sun_angle(a)`. -/
def SolTraceSystem.set_sun_angle (s : SolTraceSystem K) (a : K) : SolTraceSystem K :=
  { s with m_sun_angle := a }

/-- Modelled from the spec: the validation and caching that `initialize()` applies to one
element: a missing surface or aperture is a `ConfigurationError`, a degenerate orientation a
`DegenerateDirection`; then the orientation and the box are cached. -/
def prepare_element (M : MathUtil K) (e : CspElement K) : Except Error (CspElement K) :=
  match e.m_surface, e.m_aperture with
  | some _, some _ => (e.update_euler_angles M).map CspElement.compute_bounding_box
  | _, _ => Except.error Error.ConfigurationError

/-- The elements one after the other through `f`, stopping at the first error. -/
def mapElements (f : CspElement K → Except Error (CspElement K)) :
    List (CspElement K) → Except Error (List (CspElement K))
  | [] => Except.ok []
  | e :: rest =>
      match f e with
      | Except.error err => Except.error err
      | Except.ok e1 =>
          match mapElements f rest with
          | Except.error err => Except.error err
          | Except.ok rest1 => Except.ok (e1 :: rest1)

/-- Modelled from the spec: the aggregate scene box, the componentwise reduction of the cached
boxes of the elements. -/
def aggregate_box : List (CspElement K) → Option (Vec3d K × Vec3d K)
  | [] => none
  | e :: rest =>
      some (rest.foldl
        (fun acc e1 => (acc.1.min e1.m_lower_box_bound, acc.2.max e1.m_upper_box_bound))
        (e.m_lower_box_bound, e.m_upper_box_bound))

/-- Modelled from the spec: `initialize()` (section 4.5): it requires at least one element and
at least one element flagged receiver, else fails with `InvalidScene`; the state `CleanedUp` is
terminal; every element is validated and its derived state cached, the scene box is cached,
and the state becomes `Initialized`.  The body is not among the sources.  The two tests on
the element list are the specification's; demo_parabolic_surface.cpp and
demo_dynamic_scene.cpp call `initialize()` on scenes in which no element was flagged, so
that the sources do not settle whether the program applies the receiver test, and no
theorem below rests on it. -/
def SolTraceSystem.initialize (M : MathUtil K) (s : SolTraceSystem K) :
    Except Error (SolTraceSystem K) :=
  if s.m_element_list.isEmpty then Except.error Error.InvalidScene
  else if !(s.m_element_list.any CspElement.is_receiver) then Except.error Error.InvalidScene
  else if s.state = Lifecycle.CleanedUp then Except.error Error.NotInitialized
  else
    match mapElements (prepare_element M) s.m_element_list with
    | Except.error err => Except.error err
    | Except.ok elements =>
        Except.ok { s with m_element_list := elements, scene_box := aggregate_box elements,
                           state := Lifecycle.Initialized, results := none }

/-- Modelled from the spec: `run()`: it requires the state `Initialized`, else fails with
`NotInitialized`; it hands the elements, the sun parameters and the ray count to the engine
and stores the hit sequences, or fails with `EngineError`. -/
def SolTraceSystem.run (E : Engine K) (s : SolTraceSystem K) : Except Error (SolTraceSystem K) :=
  if s.state = Lifecycle.Initialized then
    match E.trace s.m_element_list s.m_sun_vector s.m_sun_angle s.m_num_sunpoints with
    | none => Except.error Error.EngineError
    | some hits => Except.ok { s with results := some hits }
  else Except.error Error.NotInitialized

/-- Modelled from the spec: the recomputation that `update()` applies to one element: derived
state that a setter invalidated is recomputed from the current inputs. -/
def refresh_element (M : MathUtil K) (e : CspElement K) : Except Error (CspElement K) :=
  if e.m_rotation.isSome && e.m_box_valid then Except.ok e
  else (e.update_euler_angles M).map CspElement.compute_bounding_box

/-- Modelled from the spec: `update()`: it recomputes the invalidated derived state of the
elements and invalidates the results of the last run; it does not run `initialize()` and
leaves the lifecycle state as it is. -/
def SolTraceSystem.update (M : MathUtil K) (s : SolTraceSystem K) :
    Except Error (SolTraceSystem K) :=
  match mapElements (refresh_element M) s.m_element_list with
  | Except.error err => Except.error err
  | Except.ok elements =>
      Except.ok { s with m_element_list := elements, scene_box := aggregate_box elements,
                         results := none }

/-- Modelled from the spec: whether the final recorded hit point of a ray lies within the
aperture of a receiver-flagged element. -/
def hits_receiver (M : MathUtil K) (elements : List (CspElement K)) (ray : List (Vec3d K)) :
    Bool :=
  match ray.getLast? with
  | none => false
  | some p => elements.any fun e =>
      e.is_receiver && (match e.in_plane M p with
        | Except.ok b => b
        | Except.error _ => false)

/-- Modelled from the spec: `get_num_hits_receiver()`: over the results of the last `run()`, the
number of rays whose final hit point is on a receiver; without the state `Initialized` or
without results it fails with `NotInitialized`. -/
def SolTraceSystem.get_num_hits_receiver (M : MathUtil K) (s : SolTraceSystem K) :
    Except Error Nat :=
  if s.state = Lifecycle.Initialized then
    match s.results with
    | none => Except.error Error.NotInitialized
    | some hits => Except.ok (hits.countP (hits_receiver M s.m_element_list))
  else Except.error Error.NotInitialized

/-- Modelled from the spec: `clean_up()`: it releases the engine side, drops the results and
enters the terminal state `CleanedUp`; it never fails and is idempotent. -/
def SolTraceSystem.clean_up (s : SolTraceSystem K) : SolTraceSystem K :=
  { s with state := Lifecycle.CleanedUp, results := none }

/-- The operations of the scene controller that a caller can issue. -/
inductive SceneOp (K : Type) where
  | add_element (e : CspElement K)
  | set_sun_vector (v : Vec3d K)
  | set_sun_angle (a : K)
  | init
  | run
  | update
  | get_num_hits_receiver
  | clean_up

/-- The scene after one operation; an operation that fails leaves the scene as it was (the
error surfaces at the call), and the query `get_num_hits_receiver` does not change it. -/
def SolTraceSystem.step (M : MathUtil K) (E : Engine K) (s : SolTraceSystem K) :
    SceneOp K → SolTraceSystem K
  | SceneOp.add_element e => s.add_element e
  | SceneOp.set_sun_vector v => s.set_sun_vector v
  | SceneOp.set_sun_angle a => s.set_sun_angle a
  | SceneOp.init => match SolTraceSystem.initialize M s with
      | Except.ok s1 => s1
      | Except.error _ => s
  | SceneOp.run => match s.run E with
      | Except.ok s1 => s1
      | Except.error _ => s
  | SceneOp.update => match s.update M with
      | Except.ok s1 => s1
      | Except.error _ => s
  | SceneOp.get_num_hits_receiver => s
  | SceneOp.clean_up => s.clean_up

/-- The scene after a sequence of operations. -/
def SolTraceSystem.exec (M : MathUtil K) (E : Engine K) (s : SolTraceSystem K)
    (ops : List (SceneOp K)) : SolTraceSystem K :=
  ops.foldl (SolTraceSystem.step M E) s

end Scene

/-! ## The surface classes (Surface.h) -/

/-- The class `SurfaceParabolic` with its members `m_c1` and `m_c2`; the constructor
`SurfaceParabolic(c1, c2)` is `SurfaceParabolic.mk c1 c2`. -/
structure SurfaceParabolic (K : Type) where
  m_c1 : K
  m_c2 : K
deriving DecidableEq, Repr

/-- The class `SurfaceFlat`, which has no member. -/
inductive SurfaceFlat where
  | mk
deriving DecidableEq, Repr

/-- The class `SurfaceCylinder` with its members `m_radius` and `m_half_height`. -/
structure SurfaceCylinder (K : Type) where
  m_radius : K
  m_half_height : K
deriving DecidableEq, Repr

section SurfaceClasses

variable {K : Type} [LinearOrderedField K]

/-- The default constructor `SurfaceParabolic()`: `m_c1(0.0), m_c2(0.0)`. -/
def SurfaceParabolic.new : SurfaceParabolic K := ⟨0, 0⟩

/-- The method `SurfaceParabolic::get_surface_type`. -/
def SurfaceParabolic.get_surface_type (_ : SurfaceParabolic K) : SurfaceType :=
  SurfaceType.PARABOLIC

/-- The method `SurfaceParabolic::set_curvature`. -/
def SurfaceParabolic.set_curvature (s : SurfaceParabolic K) (c1 c2 : K) : SurfaceParabolic K :=
  { s with m_c1 := c1, m_c2 := c2 }

/-- The method `SurfaceParabolic::get_curvature_1`. -/
def SurfaceParabolic.get_curvature_1 (s : SurfaceParabolic K) : K := s.m_c1

/-- The method `SurfaceParabolic::get_curvature_2`. -/
def SurfaceParabolic.get_curvature_2 (s : SurfaceParabolic K) : K := s.m_c2

/-- The method `SurfaceFlat::get_surface_type`. -/
def SurfaceFlat.get_surface_type (_ : SurfaceFlat) : SurfaceType := SurfaceType.FLAT

/-- The method `get_curvature_1` that `SurfaceFlat` inherits from `Surface`: `return 0.0`. -/
def SurfaceFlat.get_curvature_1 (_ : SurfaceFlat) : K := 0

/-- The method `get_curvature_2` that `SurfaceFlat` inherits from `Surface`: `return 0.0`. -/
def SurfaceFlat.get_curvature_2 (_ : SurfaceFlat) : K := 0

/-- The default constructor `SurfaceCylinder()`: `m_radius(1.0), m_half_height(1.0)`. -/
def SurfaceCylinder.new : SurfaceCylinder K := ⟨1, 1⟩

/-- The method `SurfaceCylinder::get_surface_type`. -/
def SurfaceCylinder.get_surface_type (_ : SurfaceCylinder K) : SurfaceType :=
  SurfaceType.CYLINDER

/-- The method `SurfaceCylinder::set_radius`. -/
def SurfaceCylinder.set_radius (s : SurfaceCylinder K) (radius : K) : SurfaceCylinder K :=
  { s with m_radius := radius }

/-- The method `SurfaceCylinder::get_radius`. -/
def SurfaceCylinder.get_radius (s : SurfaceCylinder K) : K := s.m_radius

/-- The method `SurfaceCylinder::set_half_height`. -/
def SurfaceCylinder.set_half_height (s : SurfaceCylinder K) (half_height : K) :
    SurfaceCylinder K :=
  { s with m_half_height := half_height }

/-- The method `SurfaceCylinder::get_half_height`. -/
def SurfaceCylinder.get_half_height (s : SurfaceCylinder K) : K := s.m_half_height

/-- The method `get_curvature_1` that `SurfaceCylinder` inherits from `Surface`: `return 0.0`. -/
def SurfaceCylinder.get_curvature_1 (_ : SurfaceCylinder K) : K := 0

/-- The method `get_curvature_2` that `SurfaceCylinder` inherits from `Surface`: `return 0.0`. -/
def SurfaceCylinder.get_curvature_2 (_ : SurfaceCylinder K) : K := 0

/-- A parabolic surface seen through a pointer to the base class `Surface`. -/
def SurfaceParabolic.toSurface (s : SurfaceParabolic K) : Surface K :=
  Surface.SurfaceParabolic s.m_c1 s.m_c2

/-- A flat surface seen through a pointer to the base class `Surface`. -/
def SurfaceFlat.toSurface (_ : SurfaceFlat) : Surface K := Surface.SurfaceFlat

/-- A cylinder seen through a pointer to the base class `Surface`. -/
def SurfaceCylinder.toSurface (s : SurfaceCylinder K) : Surface K :=
  Surface.SurfaceCylinder s.m_radius s.m_half_height

/-- The virtual method `Surface::get_surface_type`, dispatched on the class of the object. -/
def Surface.get_surface_type : Surface K → SurfaceType
  | Surface.SurfaceParabolic c1 c2 => (SurfaceParabolic.mk c1 c2).get_surface_type
  | Surface.SurfaceFlat => SurfaceFlat.mk.get_surface_type
  | Surface.SurfaceCylinder r h => (SurfaceCylinder.mk r h).get_surface_type

/-- The virtual method `Surface::get_curvature_1`, dispatched on the class of the object. -/
def Surface.get_curvature_1 : Surface K → K
  | Surface.SurfaceParabolic c1 c2 => (SurfaceParabolic.mk c1 c2).get_curvature_1
  | Surface.SurfaceFlat => SurfaceFlat.mk.get_curvature_1
  | Surface.SurfaceCylinder r h => (SurfaceCylinder.mk r h).get_curvature_1

/-- The virtual method `Surface::get_curvature_2`, dispatched on the class of the object. -/
def Surface.get_curvature_2 : Surface K → K
  | Surface.SurfaceParabolic c1 c2 => (SurfaceParabolic.mk c1 c2).get_curvature_2
  | Surface.SurfaceFlat => SurfaceFlat.mk.get_curvature_2
  | Surface.SurfaceCylinder r h => (SurfaceCylinder.mk r h).get_curvature_2

/-- The operations of the public interface of the surface classes: the three virtual getters,
the setter of `SurfaceParabolic`, and the setters and getters of `SurfaceCylinder`. -/
inductive SurfaceOp (K : Type) where
  | get_surface_type
  | get_curvature_1
  | get_curvature_2
  | set_curvature (c1 c2 : K)
  | set_radius (radius : K)
  | get_radius
  | set_half_height (half_height : K)
  | get_half_height
deriving DecidableEq, Repr

/-- Whether the operation is one of the setters. -/
def SurfaceOp.isSetter : SurfaceOp K → Bool
  | SurfaceOp.set_curvature _ _ => true
  | SurfaceOp.set_radius _ => true
  | SurfaceOp.set_half_height _ => true
  | _ => false

/-- The surface after an operation of its public interface; `none` where the class of the
object has no such member. -/
def Surface.apply : SurfaceOp K → Surface K → Option (Surface K)
  | SurfaceOp.get_surface_type, s => some s
  | SurfaceOp.get_curvature_1, s => some s
  | SurfaceOp.get_curvature_2, s => some s
  | SurfaceOp.set_curvature c1 c2, Surface.SurfaceParabolic a b =>
      some ((SurfaceParabolic.mk a b).set_curvature c1 c2).toSurface
  | SurfaceOp.set_radius r, Surface.SurfaceCylinder a b =>
      some ((SurfaceCylinder.mk a b).set_radius r).toSurface
  | SurfaceOp.get_radius, Surface.SurfaceCylinder a b => some (Surface.SurfaceCylinder a b)
  | SurfaceOp.set_half_height h, Surface.SurfaceCylinder a b =>
      some ((SurfaceCylinder.mk a b).set_half_height h).toSurface
  | SurfaceOp.get_half_height, Surface.SurfaceCylinder a b =>
      some (Surface.SurfaceCylinder a b)
  | _, _ => none

/-- The parameters that a surface reports: curvature 1, curvature 2 and, for a cylinder, radius
and half-height. -/
def Surface.reported (s : Surface K) : K × K × Option K × Option K :=
  match s with
  | Surface.SurfaceCylinder r h => (s.get_curvature_1, s.get_curvature_2, some r, some h)
  | _ => (s.get_curvature_1, s.get_curvature_2, none, none)

/-! ## Inline setters and getters of CspElement.h -/

/-- The inline setter `set_reflectivity`. -/
def CspElement.set_reflectivity (e : CspElement K) (val : K) : CspElement K :=
  { e with m_reflectivity := val }

/-- The inline getter `get_reflectivity`. -/
def CspElement.get_reflectivity (e : CspElement K) : K := e.m_reflectivity

/-- The inline setter `set_transmissivity`. -/
def CspElement.set_transmissivity (e : CspElement K) (val : K) : CspElement K :=
  { e with m_transmissivity := val }

/-- The inline getter `get_transmissivity`. -/
def CspElement.get_transmissivity (e : CspElement K) : K := e.m_transmissivity

/-- The inline setter `set_slope_error`. -/
def CspElement.set_slope_error (e : CspElement K) (val : K) : CspElement K :=
  { e with m_slope_error := val }

/-- The inline getter `get_slope_error`. -/
def CspElement.get_slope_error (e : CspElement K) : K := e.m_slope_error

/-- The inline setter `set_specularity_error`. -/
def CspElement.set_specularity_error (e : CspElement K) (val : K) : CspElement K :=
  { e with m_specularity_error := val }

/-- The inline getter `get_specularity_error`. -/
def CspElement.get_specularity_error (e : CspElement K) : K := e.m_specularity_error

/-- The inline setter `use_refraction(bool val)`. -/
def CspElement.use_refraction_set (e : CspElement K) (val : Bool) : CspElement K :=
  { e with m_use_refraction := val }

/-- The inline getter `use_refraction()`. -/
def CspElement.use_refraction (e : CspElement K) : Bool := e.m_use_refraction

end SurfaceClasses

/-! ## The CSV writer of optixSoltraceDemo.cpp -/

/-- The CUDA vector type `float4`; an entry of the hit buffer holds the stage in `x` and the
position in `y`, `z`, `w`. -/
structure float4 (K : Type) where
  x : FloatVal K
  y : FloatVal K
  z : FloatVal K
  w : FloatVal K
deriving DecidableEq, Repr

/-- One data line `ray_idx,x,y,z,w` of the CSV file, under the header
`number,stage,loc_x,loc_y,loc_z`. -/
structure CsvRow (K : Type) where
  number : Int
  stage : FloatVal K
  loc_x : FloatVal K
  loc_y : FloatVal K
  loc_z : FloatVal K
deriving DecidableEq, Repr

section CsvWriter

variable {K : Type} [LinearOrderedField K]

/-- The comparison `f == 0` of a float: true for a zero, false for every other number, for the
infinities and for `NaN`. -/
def FloatVal.eqZero : FloatVal K → Bool
  | FloatVal.num q => decide (q = 0)
  | _ => false

/-- The constant `max_trace`. -/
def max_trace : Int := 5

/-- The function `allZeros` of optixSoltraceDemo.cpp:
`element.y == 0 && element.z == 0 && element.w == 0`. -/
def allZeros (element : float4 K) : Bool :=
  element.y.eqZero && element.z.eqZero && element.w.eqZero

/-- The line that the loop writes for `element` under the ray number `ray_idx`. -/
def CsvRow.write (ray_idx : Int) (element : float4 K) : CsvRow K :=
  ⟨ray_idx, element.x, element.y, element.z, element.w⟩

/-- The buffer entry that a line was written from. -/
def CsvRow.entry (r : CsvRow K) : float4 K := ⟨r.stage, r.loc_x, r.loc_y, r.loc_z⟩

/-- The loop of `writeVectorToCSV` over the remaining entries, from the current values of
`ray_idx` and `idx`: the lines written, in the order in which they are written.  The counters
are of type `int`; they stay within `1 + data.size()`, and their arithmetic is taken exact. -/
def writeVectorToCSV_loop (ray_idx idx : Int) : List (float4 K) → List (CsvRow K)
  | [] => []
  | element :: rest =>
      if idx + 1 ≤ max_trace ∧ allZeros element = false then
        CsvRow.write ray_idx element :: writeVectorToCSV_loop ray_idx (idx + 1) rest
      else
        writeVectorToCSV_loop (ray_idx + 1) 0 rest

/-- The data lines that `writeVectorToCSV` writes after the header: the loop from `ray_idx = 1`
and `idx = 0`. -/
def writeVectorToCSV_rows (data : List (float4 K)) : List (CsvRow K) :=
  writeVectorToCSV_loop 1 0 data

/-- The function `writeVectorToCSV`: if the file cannot be opened nothing is written (`none`);
else the file holds the header and the data lines. -/
def writeVectorToCSV (is_open : Bool) (data : List (float4 K)) :
    Option (String × List (CsvRow K)) :=
  if is_open then some ("number,stage,loc_x,loc_y,loc_z", writeVectorToCSV_rows data) else none

/-- A buffer entry of stage `stage` at the position (1, 2, 3), for which `allZeros` is false. -/
def hit_entry (stage : K) : float4 K :=
  ⟨FloatVal.num stage, FloatVal.num 1, FloatVal.num 2, FloatVal.num 3⟩

/-- The all-zero buffer entry that `cudaMemset` leaves where a ray recorded no hit. -/
def zero_entry : float4 K :=
  ⟨FloatVal.num 0, FloatVal.num 0, FloatVal.num 0, FloatVal.num 0⟩

end CsvWriter

/-! ## Engine-side resources of optixSoltraceDemo.cpp -/

/-- The kinds of resource that the demo acquires from OptiX and CUDA. -/
inductive ResourceKind where
  | DeviceContext
  | Module
  | ProgramGroup
  | Pipeline
  | Stream
  | DeviceMemory
deriving DecidableEq, Repr

/-- The error that `OPTIX_CHECK` and `CUDA_CHECK` raise when a call does not succeed. -/
inductive DriverError where
  | InvalidValue
deriving DecidableEq, Repr

/-- The OptiX and CUDA side, which is external to the repository: the live resources, each a
handle with its kind, and the next handle to hand out (the null handle is 0). -/
structure Driver where
  live : List (Nat × ResourceKind)
  next : Nat
deriving DecidableEq, Repr

/-- A call that releases a resource: one of the `optix...Destroy` functions, or `cudaFree`. -/
inductive ReleaseCall where
  | destroy (kind : ResourceKind) (handle : Nat)
  | cudaFree (ptr : Nat)
deriving DecidableEq, Repr

/-- The struct `soltrace::LaunchParams`, as far as the host code of the demo stores handles and
sizes in it. -/
structure LaunchParams where
  width : Nat
  height : Nat
  max_depth : Int
  hit_point_buffer : Nat
  handle : Nat
deriving DecidableEq, Repr

/-- The struct `OptixShaderBindingTable`, as far as the demo fills it. -/
structure OptixShaderBindingTable where
  raygenRecord : Nat
  missRecordBase : Nat
  hitgroupRecordBase : Nat
deriving DecidableEq, Repr

/-- The struct `SoltraceState` of optixSoltraceDemo.cpp; every handle is a number, 0 being the
null handle of the default member initializers. -/
structure SoltraceState where
  context : Nat
  gas_handle : Nat
  d_gas_output_buffer : Nat
  geometry_module : Nat
  shading_module : Nat
  sun_module : Nat
  raygen_prog_group : Nat
  radiance_miss_prog_group : Nat
  radiance_mirror_prog_group : Nat
  radiance_receiver_prog_group : Nat
  pipeline : Nat
  stream : Nat
  params : LaunchParams
  d_params : Nat
  sbt : OptixShaderBindingTable
deriving DecidableEq, Repr

/-- The driver before any resource is acquired. -/
def Driver.start : Driver := ⟨[], 1⟩

/-- A successful creation (`optix...Create`, `cudaMalloc`, `cudaStreamCreate`): a fresh handle
of the kind becomes live. -/
def Driver.acquire (d : Driver) (kind : ResourceKind) : Nat × Driver :=
  (d.next, ⟨(d.next, kind) :: d.live, d.next + 1⟩)

/-- The resource that a release call names. -/
def ReleaseCall.target : ReleaseCall → Nat × ResourceKind
  | ReleaseCall.destroy kind handle => (handle, kind)
  | ReleaseCall.cudaFree ptr => (ptr, ResourceKind.DeviceMemory)

/-- A release call under `OPTIX_CHECK` or `CUDA_CHECK`: a live resource of the right kind stops
being live; `cudaFree` of the null pointer does nothing; any other call, such as one on a
handle that has already been released, does not succeed. -/
def Driver.call (d : Driver) (c : ReleaseCall) : Except DriverError Driver :=
  if c.target ∈ d.live then Except.ok ⟨d.live.filter (fun r => r ≠ c.target), d.next⟩
  else if c = ReleaseCall.cudaFree 0 then Except.ok d
  else Except.error DriverError.InvalidValue

/-- Release calls one after the other; the first that does not succeed raises its error and the
remaining calls are not made. -/
def Driver.calls (d : Driver) : List ReleaseCall → Except DriverError Driver
  | [] => Except.ok d
  | c :: rest =>
      match d.call c with
      | Except.error err => Except.error err
      | Except.ok d1 => d1.calls rest

/-- The release calls of `cleanupState`, in the order of the source. -/
def cleanupState_calls (state : SoltraceState) : List ReleaseCall :=
  [ ReleaseCall.destroy ResourceKind.Pipeline state.pipeline,
    ReleaseCall.destroy ResourceKind.ProgramGroup state.raygen_prog_group,
    ReleaseCall.destroy ResourceKind.ProgramGroup state.radiance_mirror_prog_group,
    ReleaseCall.destroy ResourceKind.ProgramGroup state.radiance_receiver_prog_group,
    ReleaseCall.destroy ResourceKind.ProgramGroup state.radiance_miss_prog_group,
    ReleaseCall.destroy ResourceKind.Module state.shading_module,
    ReleaseCall.destroy ResourceKind.Module state.geometry_module,
    ReleaseCall.destroy ResourceKind.DeviceContext state.context,
    ReleaseCall.cudaFree state.sbt.raygenRecord,
    ReleaseCall.cudaFree state.sbt.missRecordBase,
    ReleaseCall.cudaFree state.sbt.hitgroupRecordBase,
    ReleaseCall.cudaFree state.d_gas_output_buffer,
    ReleaseCall.cudaFree state.params.hit_point_buffer,
    ReleaseCall.cudaFree state.d_params ]

/-- The function `cleanupState`: it makes its release calls on the handles stored in `state`
and stores nothing in `state`, which it takes by reference and leaves as it is. -/
def cleanupState (d : Driver) (state : SoltraceState) : Except DriverError Driver :=
  d.calls (cleanupState_calls state)

/-- The default-initialized `SoltraceState state;` of `main`, with the launch parameters that
`main` sets before the set-up. -/
def SoltraceState.new : SoltraceState :=
  { context := 0, gas_handle := 0, d_gas_output_buffer := 0, geometry_module := 0,
    shading_module := 0, sun_module := 0, raygen_prog_group := 0, radiance_miss_prog_group := 0,
    radiance_mirror_prog_group := 0, radiance_receiver_prog_group := 0, pipeline := 0,
    stream := 0,
    params := { width := 1000000, height := 1, max_depth := 0, hit_point_buffer := 0,
                handle := 0 },
    d_params := 0, sbt := { raygenRecord := 0, missRecordBase := 0, hitgroupRecordBase := 0 } }

/-- The function `createContext`: the device context is created and stored. -/
def createContext (d : Driver) (state : SoltraceState) : Driver × SoltraceState :=
  let r := d.acquire ResourceKind.DeviceContext
  (r.2, { state with context := r.1 })

/-- The resources of `createGeometry` with `buildGas`: the device arrays `d_aabb` and
`d_sbt_index` and the temporary build buffer are allocated and freed again; the output buffer
of the build is kept in `state.d_gas_output_buffer`, or, when the compacted structure is
smaller (`compacts`), a new buffer is allocated for it and the first one is freed.  The
traversable handle `state.gas_handle` refers to the kept buffer and is modelled by its
handle. -/
def createGeometry_resources (compacts : Bool) (d : Driver) (state : SoltraceState) :
    Except DriverError (Driver × SoltraceState) :=
  let d_aabb := d.acquire ResourceKind.DeviceMemory
  let d_sbt_index := d_aabb.2.acquire ResourceKind.DeviceMemory
  let d_temp_buffer_gas := d_sbt_index.2.acquire ResourceKind.DeviceMemory
  let d_output := d_temp_buffer_gas.2.acquire ResourceKind.DeviceMemory
  match d_output.2.call (ReleaseCall.cudaFree d_temp_buffer_gas.1) with
  | Except.error err => Except.error err
  | Except.ok d1 =>
    let built : Except DriverError (Driver × Nat) :=
      if compacts then
        let d_gas := d1.acquire ResourceKind.DeviceMemory
        match d_gas.2.call (ReleaseCall.cudaFree d_output.1) with
        | Except.error err => Except.error err
        | Except.ok d2 => Except.ok (d2, d_gas.1)
      else Except.ok (d1, d_output.1)
    match built with
    | Except.error err => Except.error err
    | Except.ok (d3, d_gas_output_buffer) =>
      match d3.calls [ReleaseCall.cudaFree d_aabb.1, ReleaseCall.cudaFree d_sbt_index.1] with
      | Except.error err => Except.error err
      | Except.ok d4 =>
          Except.ok (d4, { state with gas_handle := d_gas_output_buffer,
                                      d_gas_output_buffer := d_gas_output_buffer })

/-- The function `createModules`: the geometry, shading and sun modules are created. -/
def createModules (d : Driver) (state : SoltraceState) : Driver × SoltraceState :=
  let g := d.acquire ResourceKind.Module
  let sh := g.2.acquire ResourceKind.Module
  let su := sh.2.acquire ResourceKind.Module
  (su.2, { state with geometry_module := g.1, shading_module := sh.1, sun_module := su.1 })

/-- The function `createPipeline`: `createModules`, then the program groups of
`createSunProgram`, `createMirrorProgram`, `createReceiverProgram` and `createMissProgram`,
then the pipeline. -/
def createPipeline (d : Driver) (state : SoltraceState) : Driver × SoltraceState :=
  let m := createModules d state
  let sun := m.1.acquire ResourceKind.ProgramGroup
  let mirror := sun.2.acquire ResourceKind.ProgramGroup
  let receiver := mirror.2.acquire ResourceKind.ProgramGroup
  let miss := receiver.2.acquire ResourceKind.ProgramGroup
  let pipeline := miss.2.acquire ResourceKind.Pipeline
  (pipeline.2, { m.2 with raygen_prog_group := sun.1, radiance_mirror_prog_group := mirror.1,
                          radiance_receiver_prog_group := receiver.1,
                          radiance_miss_prog_group := miss.1, pipeline := pipeline.1 })

/-- The function `createSBT`: the device records of the ray generation program, the miss
programs and the hit groups are allocated and stored in `state.sbt`. -/
def createSBT (d : Driver) (state : SoltraceState) : Driver × SoltraceState :=
  let rg := d.acquire ResourceKind.DeviceMemory
  let ms := rg.2.acquire ResourceKind.DeviceMemory
  let hg := ms.2.acquire ResourceKind.DeviceMemory
  (hg.2, { state with sbt := { raygenRecord := rg.1, missRecordBase := ms.1,
                               hitgroupRecordBase := hg.1 } })

/-- The function `initLaunchParams`: the hit point buffer, the stream and the device copy of
the launch parameters are created; the GAS handle is linked. -/
def initLaunchParams (d : Driver) (state : SoltraceState) : Driver × SoltraceState :=
  let hp := d.acquire ResourceKind.DeviceMemory
  let st := hp.2.acquire ResourceKind.Stream
  let dp := st.2.acquire ResourceKind.DeviceMemory
  (dp.2, { state with
    params := { state.params with max_depth := max_trace, hit_point_buffer := hp.1,
                                  handle := state.gas_handle },
    stream := st.1, d_params := dp.1 })

/-- The set-up of `main`: `createContext`, `createGeometry`, `createPipeline`, `createSBT` and
`initLaunchParams`, on a driver without resources and the default state. -/
def main_setup (compacts : Bool) : Except DriverError (Driver × SoltraceState) :=
  let c := createContext Driver.start SoltraceState.new
  match createGeometry_resources compacts c.1 c.2 with
  | Except.error err => Except.error err
  | Except.ok g =>
      let p := createPipeline g.1 g.2
      let t := createSBT p.1 p.2
      Except.ok (initLaunchParams t.1 t.2)

/-- The state is set up for the clean-up: every resource that `cleanupState` names is live, and
no two of its calls name the same resource. -/
def Releasable (d : Driver) (state : SoltraceState) : Prop :=
  (∀ c ∈ cleanupState_calls state, c.target ∈ d.live) ∧
  ((cleanupState_calls state).map ReleaseCall.target).Nodup

instance (d : Driver) (state : SoltraceState) : Decidable (Releasable d state) := by
  unfold Releasable; infer_instance

/-! ## Hit buffers of rays that are terminated early -/

section EarlyTermination

variable {K : Type} [LinearOrderedField K]

/-- A ray's group of the hit buffer that is terminated early on miss: `max_trace` entries, of
which the first are entries for which `allZeros` is false (the hits) and all that follow,
at least one, are entries for which `allZeros` is true. -/
def TerminatedEarly (g : List (float4 K)) : Prop :=
  (g.length : Int) = max_trace ∧
  ∃ hits zeros, g = hits ++ zeros ∧ zeros ≠ [] ∧
    (∀ e ∈ hits, allZeros e = false) ∧ (∀ e ∈ zeros, allZeros e = true)

/-- The rows of the rays, ray by ray, when the group of the first ray is written under the
number `ray_idx`: a ray's rows are written from the entries of its group for which `allZeros`
is false, and every other entry of the group advances the number by one. -/
def rows_by_ray (ray_idx : Int) : List (List (float4 K)) → List (List (CsvRow K))
  | [] => []
  | g :: rest =>
      (g.filter fun e => !allZeros e).map (CsvRow.write ray_idx) ::
        rows_by_ray (ray_idx + (g.countP allZeros : Nat)) rest

end EarlyTermination

/-! ## Hit-group records of `createSBT` -/

/-- The program group whose header `createSBT` packs into a hit-group record. -/
inductive HitProgram where
  | radiance_mirror_prog_group
  | radiance_receiver_prog_group
deriving DecidableEq, Repr

/-- The material parameters that `createSBT` stores in a record: reflectivity, transmissivity,
slope error and specularity error. -/
structure MaterialParams (K : Type) where
  reflectivity : K
  transmissivity : K
  slope_error : K
  specularity_error : K
deriving DecidableEq, Repr

/-- A hit-group record of `createSBT`: the packed program header, the geometry set by
`setParallelogram`, and the material data. -/
structure HitGroupRecord (K : Type) where
  header : HitProgram
  geometry_data : Parallelogram K
  material_data : MaterialParams K
deriving DecidableEq, Repr

section HitGroupRecords

variable {K : Type} [LinearOrderedField K]

/-- The array `sbt_index[]` of `createGeometry`. -/
def sbt_index : List Nat := [0, 1, 2, 3]

/-- The array `hitgroup_records` that `createSBT` fills: `RAY_TYPE_COUNT * OBJ_COUNT` records,
of which the records at `sbt_idx = 0, 1, 2, 3` are set, in this order, for `heliostat1`,
`heliostat2`, `heliostat3` (mirror program group) and `receiver` (receiver program group);
a record that is not set is `none`.  The constant `soltrace::RAY_TYPE_COUNT` is not among the
sources and is a parameter. -/
def createSBT_hitgroup_records (RAY_TYPE_COUNT : Nat)
    (heliostat1 heliostat2 heliostat3 receiver : Parallelogram K) :
    List (Option (HitGroupRecord K)) :=
  let count_records := RAY_TYPE_COUNT * OBJ_COUNT
  let hitgroup_records : List (Option (HitGroupRecord K)) := List.replicate count_records none
  let sbt_idx := 0
  let hitgroup_records := hitgroup_records.set sbt_idx
    (some ⟨HitProgram.radiance_mirror_prog_group, heliostat1, ⟨95 / 100, 0, 0, 0⟩⟩)
  let sbt_idx := sbt_idx + 1
  let hitgroup_records := hitgroup_records.set sbt_idx
    (some ⟨HitProgram.radiance_mirror_prog_group, heliostat2, ⟨95 / 100, 0, 0, 0⟩⟩)
  let sbt_idx := sbt_idx + 1
  let hitgroup_records := hitgroup_records.set sbt_idx
    (some ⟨HitProgram.radiance_mirror_prog_group, heliostat3, ⟨95 / 100, 0, 0, 0⟩⟩)
  let sbt_idx := sbt_idx + 1
  hitgroup_records.set sbt_idx
    (some ⟨HitProgram.radiance_receiver_prog_group, receiver, ⟨95 / 100, 0, 0, 0⟩⟩)

end HitGroupRecords

/-! ## The program of demo_transmissivity.cpp -/

/-- The objects of the demo program: the `CspElement` objects that `std::make_shared` allocated,
by address; the shared pointers that the scene holds, in the order of `add_element`; and the
local object `e5`, which is a `CspElement` by value. -/
structure DemoStore (K : Type) where
  heap : List (CspElement K)
  m_element_list : List Nat
  e5 : CspElement K

section DemoProgram

variable {K : Type} [LinearOrderedField K]

/-- The call `std::make_shared<CspElement>(e)`: a new object, a copy of `e`, at a new address. -/
def DemoStore.make_shared (st : DemoStore K) (e : CspElement K) : Nat × DemoStore K :=
  (st.heap.length, { st with heap := st.heap ++ [e] })

/-- A call `p->f(...)` of a member function through the shared pointer `p`. -/
def DemoStore.through (st : DemoStore K) (p : Nat) (f : CspElement K → CspElement K) :
    DemoStore K :=
  { st with heap := st.heap.modify f p }

/-- Modelled from the spec: `system.add_element(p)` appends the shared pointer to the ordered
collection of the scene. -/
def DemoStore.add_element (st : DemoStore K) (p : Nat) : DemoStore K :=
  { st with m_element_list := st.m_element_list ++ [p] }

/-- The elements that the scene holds: the objects its shared pointers point to. -/
def DemoStore.elements (st : DemoStore K) : List (CspElement K) :=
  st.m_element_list.filterMap fun p => st.heap.get? p

/-- One element of the demo set up through its shared pointer: `make_shared<CspElement>()`,
then `set_origin`, `set_aim_point`, `set_zrot`, and surface and aperture. -/
def DemoStore.new_element (st : DemoStore K) (origin aim_point : Vec3d K) (zrot : K)
    (surface : Surface K) (aperture : Aperture K) : Nat × DemoStore K :=
  let r := st.make_shared CspElement.new
  (r.1, ((((r.2.through r.1 fun e => e.set_origin origin).through r.1
    fun e => e.set_aim_point aim_point).through r.1
    fun e => e.set_zrot zrot).through r.1
    fun e => e.set_surface surface).through r.1 fun e => e.set_aperture aperture)

end DemoProgram

/-- The statements of `main` of demo_transmissivity.cpp that build the scene, up to and with
`e5.set_receiver(false)`: `e1` and `e3` are created and not added; `e2` is added; `e4` is
flagged receiver and added; `e5` is a copy of `*e4` with another origin, a copy of `e5` is
added through `make_shared`, and then the local `e5` is set to be no receiver. -/
def demo_transmissivity_main : DemoStore ℚ :=
  let st0 : DemoStore ℚ := { heap := [], m_element_list := [], e5 := CspElement.new }
  let e1 := st0.new_element ⟨-5, 0, 0⟩ ⟨1736068 / 100000, 0, 9472136 / 100000⟩ (-90)
    Surface.SurfaceFlat (Aperture.ApertureRectangle 1 (195 / 100))
  let e2 := e1.2.new_element ⟨0, 5, 0⟩ ⟨0, -1736068 / 100000, 9472136 / 100000⟩ 0
    Surface.SurfaceFlat (Aperture.ApertureRectangle 1 (195 / 100))
  let st2 := e2.2.add_element e2.1
  let e3 := st2.new_element ⟨5, 0, 0⟩ ⟨-1736068 / 100000, 0, 9472136 / 100000⟩ 90
    Surface.SurfaceFlat (Aperture.ApertureRectangle 1 (195 / 100))
  let e4 := e3.2.make_shared CspElement.new
  let st4 := ((((((e4.2.through e4.1 fun e => e.set_origin ⟨0, 0, 95 / 10⟩).through e4.1
    fun e => e.set_aim_point ⟨0, 5, 0⟩).through e4.1
    fun e => e.set_zrot 0).through e4.1
    fun e => e.set_aperture (Aperture.ApertureRectangle 2 2)).through e4.1
    fun e => e.set_surface Surface.SurfaceFlat).through e4.1
    fun e => e.set_receiver true).add_element e4.1
  let st5 : DemoStore ℚ := { st4 with e5 := st4.heap.getD e4.1 CspElement.new }
  let st6 : DemoStore ℚ := { st5 with e5 := st5.e5.set_origin ⟨0, 1, 75 / 10⟩ }
  let copy := st6.make_shared st6.e5
  let st7 := copy.2.add_element copy.1
  { st7 with e5 := st7.e5.set_receiver false }

/-! ## Theorems -/

section FloatArith

variable {K : Type} [LinearOrderedField K] [FloatFormat K]

open FloatVal

theorem float3.vec_add_def (a b : float3 K) : a + b = ⟨a.x + b.x, a.y + b.y, a.z + b.z⟩ := rfl

theorem FloatVal.num_add_num (a b : K) :
    (num a + num b : FloatVal K) = FloatFormat.round (a + b) := rfl

theorem FloatVal.num_mul_num (a b : K) :
    (num a * num b : FloatVal K) = FloatFormat.round (a * b) := rfl

theorem FloatVal.num_div_num (a b : K) (hb : b ≠ 0) :
    (num a / num b : FloatVal K) = FloatFormat.round (a / b) := by
  show FloatVal.div (num a) (num b) = FloatFormat.round (a / b)
  simp [FloatVal.div, hb]

end FloatArith

section FloatLemmas

variable {K : Type} [LinearOrderedField K]

open FloatVal

theorem FloatVal.num_le_num (a b : K) : (num a ≤ num b) ↔ a ≤ b := Iff.rfl

theorem FloatVal.fminf_num (a b : K) : fminf (num a) (num b) = num (min a b) := rfl

theorem FloatVal.fmaxf_num (a b : K) : fmaxf (num a) (num b) = num (max a b) := rfl

theorem FloatVal.isFinite_iff (x : FloatVal K) : x.isFinite = true ↔ ∃ a, x = num a := by
  cases x <;> simp [FloatVal.isFinite]

theorem float3.isFinite_iff_make (v : float3 K) :
    v.isFinite = true ↔ ∃ a b c, v = make_float3 a b c := by
  rcases v with ⟨x, y, z⟩
  cases x <;> cases y <;> cases z <;> simp [float3.isFinite, FloatVal.isFinite, make_float3]

theorem sumsq_ne_zero (a b c : K) (h : make_float3 a b c ≠ make_float3 0 0 0) :
    a * a + b * b + c * c ≠ 0 := by
  intro h0
  apply h
  have ha : a = 0 := by nlinarith [mul_self_nonneg a, mul_self_nonneg b, mul_self_nonneg c]
  have hb : b = 0 := by nlinarith [mul_self_nonneg a, mul_self_nonneg b, mul_self_nonneg c]
  have hc : c = 0 := by nlinarith [mul_self_nonneg a, mul_self_nonneg b, mul_self_nonneg c]
  simp [ha, hb, hc]

theorem FloatVal.le_trans_float {x y z : FloatVal K} (h1 : x ≤ y) (h2 : y ≤ z) : x ≤ z := by
  cases x <;> cases y <;> cases z <;> simp_all [LE.le, FloatVal.le]
  exact le_trans h1 h2

theorem FloatVal.le_self {x : FloatVal K} (h : x.isOrdered = true) : x ≤ x := by
  cases x <;> simp_all [LE.le, FloatVal.le, FloatVal.isOrdered]

theorem FloatVal.fminf_le_left {x y : FloatVal K} (hx : x.isOrdered = true) :
    fminf x y ≤ x := by
  cases x <;> cases y <;> simp_all [LE.le, FloatVal.le, FloatVal.isOrdered, FloatVal.fminf]

theorem FloatVal.fminf_le_right {x y : FloatVal K} (hy : y.isOrdered = true) :
    fminf x y ≤ y := by
  cases x <;> cases y <;> simp_all [LE.le, FloatVal.le, FloatVal.isOrdered, FloatVal.fminf]

theorem FloatVal.le_fmaxf_left {x y : FloatVal K} (hx : x.isOrdered = true) :
    x ≤ fmaxf x y := by
  cases x <;> cases y <;> simp_all [LE.le, FloatVal.le, FloatVal.isOrdered, FloatVal.fmaxf]

theorem FloatVal.le_fmaxf_right {x y : FloatVal K} (hy : y.isOrdered = true) :
    y ≤ fmaxf x y := by
  cases x <;> cases y <;> simp_all [LE.le, FloatVal.le, FloatVal.isOrdered, FloatVal.fmaxf]

theorem FloatVal.fminf_isOrdered_left {x : FloatVal K} (y : FloatVal K)
    (hx : x.isOrdered = true) : (fminf x y).isOrdered = true := by
  cases x <;> cases y <;> simp_all [FloatVal.isOrdered, FloatVal.fminf]

theorem FloatVal.fmaxf_isOrdered_left {x : FloatVal K} (y : FloatVal K)
    (hx : x.isOrdered = true) : (fmaxf x y).isOrdered = true := by
  cases x <;> cases y <;> simp_all [FloatVal.isOrdered, FloatVal.fmaxf]

theorem FloatVal.fminf_isOrdered_right (x : FloatVal K) {y : FloatVal K}
    (hy : y.isOrdered = true) : (fminf x y).isOrdered = true := by
  cases x <;> cases y <;> simp_all [FloatVal.isOrdered, FloatVal.fminf]

theorem FloatVal.fmaxf_isOrdered_right (x : FloatVal K) {y : FloatVal K}
    (hy : y.isOrdered = true) : (fmaxf x y).isOrdered = true := by
  cases x <;> cases y <;> simp_all [FloatVal.isOrdered, FloatVal.fmaxf]

theorem FloatVal.fminf_eq_or (x y : FloatVal K) : fminf x y = x ∨ fminf x y = y := by
  cases x <;> cases y <;> simp [FloatVal.fminf]
  rename_i a b
  rcases le_total a b with h | h <;> simp [h]

theorem FloatVal.fmaxf_eq_or (x y : FloatVal K) : fmaxf x y = x ∨ fmaxf x y = y := by
  cases x <;> cases y <;> simp [FloatVal.fmaxf]
  rename_i a b
  rcases le_total a b with h | h <;> simp [h]

/-- The minimum of four ordered floats, folded as the loop of `createGeometry` does. -/
theorem FloatVal.four_fminf {a b c d : FloatVal K} (ha : a.isOrdered = true)
    (hb : b.isOrdered = true) (hc : c.isOrdered = true) (hd : d.isOrdered = true) :
    let m := fminf (fminf (fminf a b) c) d
    (m ≤ a ∧ m ≤ b ∧ m ≤ c ∧ m ≤ d) ∧ (m = a ∨ m = b ∨ m = c ∨ m = d) := by
  intro m
  have o1 : (fminf a b).isOrdered = true := fminf_isOrdered_left b ha
  have o2 : (fminf (fminf a b) c).isOrdered = true := fminf_isOrdered_left c o1
  have l2 : m ≤ fminf (fminf a b) c := fminf_le_left o2
  have l1 : m ≤ fminf a b := le_trans_float l2 (fminf_le_left o1)
  refine ⟨⟨le_trans_float l1 (fminf_le_left ha), le_trans_float l1 (fminf_le_right hb),
    le_trans_float l2 (fminf_le_right hc), fminf_le_right hd⟩, ?_⟩
  rcases fminf_eq_or (fminf (fminf a b) c) d with h | h
  · rcases fminf_eq_or (fminf a b) c with h2 | h2
    · rcases fminf_eq_or a b with h3 | h3
      · exact Or.inl (h.trans (h2.trans h3))
      · exact Or.inr (Or.inl (h.trans (h2.trans h3)))
    · exact Or.inr (Or.inr (Or.inl (h.trans h2)))
  · exact Or.inr (Or.inr (Or.inr h))

/-- The maximum of four ordered floats, folded as the loop of `createGeometry` does. -/
theorem FloatVal.four_fmaxf {a b c d : FloatVal K} (ha : a.isOrdered = true)
    (hb : b.isOrdered = true) (hc : c.isOrdered = true) (hd : d.isOrdered = true) :
    let m := fmaxf (fmaxf (fmaxf a b) c) d
    (a ≤ m ∧ b ≤ m ∧ c ≤ m ∧ d ≤ m) ∧ (m = a ∨ m = b ∨ m = c ∨ m = d) := by
  intro m
  have o1 : (fmaxf a b).isOrdered = true := fmaxf_isOrdered_left b ha
  have o2 : (fmaxf (fmaxf a b) c).isOrdered = true := fmaxf_isOrdered_left c o1
  have l2 : fmaxf (fmaxf a b) c ≤ m := le_fmaxf_left o2
  have l1 : fmaxf a b ≤ m := le_trans_float (le_fmaxf_left o1) l2
  refine ⟨⟨le_trans_float (le_fmaxf_left ha) l1, le_trans_float (le_fmaxf_right hb) l1,
    le_trans_float (le_fmaxf_right hc) l2, le_fmaxf_right hd⟩, ?_⟩
  rcases fmaxf_eq_or (fmaxf (fmaxf a b) c) d with h | h
  · rcases fmaxf_eq_or (fmaxf a b) c with h2 | h2
    · rcases fmaxf_eq_or a b with h3 | h3
      · exact Or.inl (h.trans (h2.trans h3))
      · exact Or.inr (Or.inl (h.trans (h2.trans h3)))
    · exact Or.inr (Or.inr (Or.inl (h.trans h2)))
  · exact Or.inr (Or.inr (Or.inr h))

/-- The lower and upper bound that `parallelogram_bound` computes for one coordinate `a` of an
ordered anchor are ordered and enclose `a`, whatever the other three corners are. -/
theorem FloatVal.corner_bounds {a : FloatVal K} (p q r : FloatVal K) (ha : a.isOrdered = true) :
    (fminf (fminf a p) (fminf q r)).isOrdered = true ∧
    (fmaxf (fmaxf a p) (fmaxf q r)).isOrdered = true ∧
    fminf (fminf a p) (fminf q r) ≤ a ∧ a ≤ fmaxf (fmaxf a p) (fmaxf q r) := by
  have o1 : (fminf a p).isOrdered = true := fminf_isOrdered_left p ha
  have o2 : (fmaxf a p).isOrdered = true := fmaxf_isOrdered_left p ha
  exact ⟨fminf_isOrdered_left _ o1, fmaxf_isOrdered_left _ o2,
    le_trans_float (fminf_le_left o1) (fminf_le_left ha),
    le_trans_float (le_fmaxf_left ha) (le_fmaxf_left o2)⟩

/-- Each of four floats that is not `NaN` lies between the `fminf` and the `fmaxf` of the
four, folded as `parallelogram_bound` folds the four corners. -/
theorem FloatVal.corner_within (a b c d : FloatVal K) :
    (a.isOrdered = true →
      fminf (fminf a b) (fminf c d) ≤ a ∧ a ≤ fmaxf (fmaxf a b) (fmaxf c d)) ∧
    (b.isOrdered = true →
      fminf (fminf a b) (fminf c d) ≤ b ∧ b ≤ fmaxf (fmaxf a b) (fmaxf c d)) ∧
    (c.isOrdered = true →
      fminf (fminf a b) (fminf c d) ≤ c ∧ c ≤ fmaxf (fmaxf a b) (fmaxf c d)) ∧
    (d.isOrdered = true →
      fminf (fminf a b) (fminf c d) ≤ d ∧ d ≤ fmaxf (fmaxf a b) (fmaxf c d)) := by
  refine ⟨fun h => ?_, fun h => ?_, fun h => ?_, fun h => ?_⟩
  · have o1 : (fminf a b).isOrdered = true := fminf_isOrdered_left b h
    have o2 : (fmaxf a b).isOrdered = true := fmaxf_isOrdered_left b h
    exact ⟨le_trans_float (fminf_le_left o1) (fminf_le_left h),
      le_trans_float (le_fmaxf_left h) (le_fmaxf_left o2)⟩
  · have o1 : (fminf a b).isOrdered = true := fminf_isOrdered_right a h
    have o2 : (fmaxf a b).isOrdered = true := fmaxf_isOrdered_right a h
    exact ⟨le_trans_float (fminf_le_left o1) (fminf_le_right h),
      le_trans_float (le_fmaxf_right h) (le_fmaxf_left o2)⟩
  · have o1 : (fminf c d).isOrdered = true := fminf_isOrdered_left d h
    have o2 : (fmaxf c d).isOrdered = true := fmaxf_isOrdered_left d h
    exact ⟨le_trans_float (fminf_le_right o1) (fminf_le_left h),
      le_trans_float (le_fmaxf_left h) (le_fmaxf_right o2)⟩
  · have o1 : (fminf c d).isOrdered = true := fminf_isOrdered_right c h
    have o2 : (fmaxf c d).isOrdered = true := fmaxf_isOrdered_right c h
    exact ⟨le_trans_float (fminf_le_right o1) (fminf_le_right h),
      le_trans_float (le_fmaxf_right h) (le_fmaxf_right o2)⟩

/-- A weighted mean of four numbers with the weights of `bilinear` lies between the least and
the greatest of the four. -/
theorem bilinear_between (p q r u s t : K) (hs0 : 0 ≤ s) (hs1 : s ≤ 1) (ht0 : 0 ≤ t)
    (ht1 : t ≤ 1) :
    min (min p q) (min r u) ≤ bilinear s t p q r u ∧
    bilinear s t p q r u ≤ max (max p q) (max r u) := by
  have h1s : 0 ≤ 1 - s := sub_nonneg.2 hs1
  have h1t : 0 ≤ 1 - t := sub_nonneg.2 ht1
  constructor
  · have hp : min (min p q) (min r u) ≤ p := le_trans (min_le_left _ _) (min_le_left _ _)
    have hq : min (min p q) (min r u) ≤ q := le_trans (min_le_left _ _) (min_le_right _ _)
    have hr : min (min p q) (min r u) ≤ r := le_trans (min_le_right _ _) (min_le_left _ _)
    have hu : min (min p q) (min r u) ≤ u := le_trans (min_le_right _ _) (min_le_right _ _)
    generalize min (min p q) (min r u) = m at hp hq hr hu
    have e1 := mul_nonneg (mul_nonneg h1s h1t) (sub_nonneg.2 hp)
    have e2 := mul_nonneg (mul_nonneg hs0 h1t) (sub_nonneg.2 hq)
    have e3 := mul_nonneg (mul_nonneg h1s ht0) (sub_nonneg.2 hr)
    have e4 := mul_nonneg (mul_nonneg hs0 ht0) (sub_nonneg.2 hu)
    unfold bilinear
    nlinarith [e1, e2, e3, e4]
  · have hp : p ≤ max (max p q) (max r u) := le_trans (le_max_left _ _) (le_max_left _ _)
    have hq : q ≤ max (max p q) (max r u) := le_trans (le_max_right _ _) (le_max_left _ _)
    have hr : r ≤ max (max p q) (max r u) := le_trans (le_max_left _ _) (le_max_right _ _)
    have hu : u ≤ max (max p q) (max r u) := le_trans (le_max_right _ _) (le_max_right _ _)
    generalize max (max p q) (max r u) = m at hp hq hr hu
    have e1 := mul_nonneg (mul_nonneg h1s h1t) (sub_nonneg.2 hp)
    have e2 := mul_nonneg (mul_nonneg hs0 h1t) (sub_nonneg.2 hq)
    have e3 := mul_nonneg (mul_nonneg h1s ht0) (sub_nonneg.2 hr)
    have e4 := mul_nonneg (mul_nonneg hs0 ht0) (sub_nonneg.2 hu)
    unfold bilinear
    nlinarith [e1, e2, e3, e4]

/-- The quadrilateral point of a parallelogram with the corners `a`, `a + u`, `a + w` and
`a + u + w` is `a + s * u + t * w`. -/
theorem bilinear_parallelogram (a u w s t : K) :
    bilinear s t a (a + u) (a + w) (a + u + w) = a + s * u + t * w := by
  unfold bilinear
  ring

end FloatLemmas

section ParallelogramBound

variable {K : Type} [LinearOrderedField K] [FloatFormat K]

open FloatVal

/-- The box of an anchor without `NaN` has no `NaN` bound and contains the anchor. -/
theorem parallelogram_bound_ordered (v1 v2 anchor : float3 K) (ha : anchor.isOrdered = true) :
    (parallelogram_bound v1 v2 anchor).isOrdered = true ∧
    (parallelogram_bound v1 v2 anchor).contains anchor := by
  simp only [float3.isOrdered, Bool.and_eq_true] at ha
  obtain ⟨⟨hx, hy⟩, hz⟩ := ha
  have bx := FloatVal.corner_bounds (anchor + v1.divs (dot v1 v1)).x
    (anchor + v2.divs (dot v2 v2)).x (anchor + v1.divs (dot v1 v1) + v2.divs (dot v2 v2)).x hx
  have by1 := FloatVal.corner_bounds (anchor + v1.divs (dot v1 v1)).y
    (anchor + v2.divs (dot v2 v2)).y (anchor + v1.divs (dot v1 v1) + v2.divs (dot v2 v2)).y hy
  have bz := FloatVal.corner_bounds (anchor + v1.divs (dot v1 v1)).z
    (anchor + v2.divs (dot v2 v2)).z (anchor + v1.divs (dot v1 v1) + v2.divs (dot v2 v2)).z hz
  simp only [parallelogram_bound, OptixAabb.isOrdered, OptixAabb.contains, float3.fminf,
    float3.fmaxf, Bool.and_eq_true]
  exact ⟨⟨⟨⟨⟨⟨bx.1, by1.1⟩, bz.1⟩, bx.2.1⟩, by1.2.1⟩, bz.2.1⟩,
    bx.2.2.1, bx.2.2.2, by1.2.2.1, by1.2.2.2, bz.2.2.1, bz.2.2.2⟩

/-- A box that contains a point has `min ≤ max` in x, y and z. -/
theorem OptixAabb.min_le_max_of_contains {K : Type} [LinearOrderedField K] {b : OptixAabb K}
    {p : float3 K} (h : b.contains p) :
    b.minX ≤ b.maxX ∧ b.minY ≤ b.maxY ∧ b.minZ ≤ b.maxZ := by
  obtain ⟨c1, c2, c3, c4, c5, c6⟩ := h
  exact ⟨le_trans_float c1 c2, le_trans_float c3 c4, le_trans_float c5 c6⟩

/-- Claim C3, counterexample. In binary32 the non-zero edge `v1 = (2^-80, 0, 0)` has
`dot(v1, v1) = 0`, because `2^-160` underflows to zero; so `tv1 = v1 / dot(v1, v1)` is
`(+inf, NaN, NaN)`, the box of `v1`, `v2 = (0, 2, 0)` and the anchor `(1, 2, 3)` is
`(1, 2, 3, +inf, 2.5, 3)`, and the corners `anchor + tv1` and `anchor + tv1 + tv2`, which have
`NaN` components, do not lie within it. -/
theorem parallelogram_bound_nan_corner :
    make_float3 (pow2 (-80)) 0 0 ≠ make_float3 0 0 0 ∧
    make_float3 (0 : ℚ) 2 0 ≠ make_float3 0 0 0 ∧
    dot (make_float3 (pow2 (-80)) 0 0) (make_float3 (pow2 (-80)) 0 0) = num 0 ∧
    (make_float3 (pow2 (-80)) 0 0).divs
        (dot (make_float3 (pow2 (-80)) 0 0) (make_float3 (pow2 (-80)) 0 0))
      = ⟨pinf, nan, nan⟩ ∧
    parallelogram_bound (make_float3 (pow2 (-80)) 0 0) (make_float3 0 2 0) (make_float3 1 2 3)
      = ⟨num 1, num 2, num 3, pinf, num (5 / 2), num 3⟩ ∧
    ¬ (parallelogram_bound (make_float3 (pow2 (-80)) 0 0) (make_float3 0 2 0)
        (make_float3 1 2 3)).contains
      (make_float3 1 2 3 + (make_float3 (pow2 (-80)) 0 0).divs
        (dot (make_float3 (pow2 (-80)) 0 0) (make_float3 (pow2 (-80)) 0 0))) ∧
    ¬ (parallelogram_bound (make_float3 (pow2 (-80)) 0 0) (make_float3 0 2 0)
        (make_float3 1 2 3)).contains
      (make_float3 1 2 3 + (make_float3 (pow2 (-80)) 0 0).divs
        (dot (make_float3 (pow2 (-80)) 0 0) (make_float3 (pow2 (-80)) 0 0))
        + (make_float3 (0 : ℚ) 2 0).divs (dot (make_float3 (0 : ℚ) 2 0) (make_float3 0 2 0))) := by
  decide!

/-- Claim C3, amended. For every anchor and all `v1`, `v2`, whatever the float format rounds
to, each of the four corners `anchor`, `anchor + tv1`, `anchor + tv2`, `anchor + tv1 + tv2`
(with `tv = v / dot(v, v)`) that `parallelogram_bound` computes lies within `[min, max]` of the
returned box componentwise as soon as the corner has no `NaN` component, and the box has
`max ≥ min` in x, y and z as soon as one of the four corners has no `NaN` component.  A
non-zero `v` does not keep `NaN` out of the corners. -/
theorem parallelogram_bound_corners (v1 v2 anchor : float3 K) :
    let box := parallelogram_bound v1 v2 anchor
    let tv1 := v1.divs (dot v1 v1)
    let tv2 := v2.divs (dot v2 v2)
    (anchor.isOrdered = true → box.contains anchor) ∧
    ((anchor + tv1).isOrdered = true → box.contains (anchor + tv1)) ∧
    ((anchor + tv2).isOrdered = true → box.contains (anchor + tv2)) ∧
    ((anchor + tv1 + tv2).isOrdered = true → box.contains (anchor + tv1 + tv2)) ∧
    (anchor.isOrdered = true ∨ (anchor + tv1).isOrdered = true ∨
        (anchor + tv2).isOrdered = true ∨ (anchor + tv1 + tv2).isOrdered = true →
      box.minX ≤ box.maxX ∧ box.minY ≤ box.maxY ∧ box.minZ ≤ box.maxZ) := by
  intro box tv1 tv2
  obtain ⟨x0, x1, x2, x3⟩ := FloatVal.corner_within anchor.x (anchor + tv1).x (anchor + tv2).x
    (anchor + tv1 + tv2).x
  obtain ⟨y0, y1, y2, y3⟩ := FloatVal.corner_within anchor.y (anchor + tv1).y (anchor + tv2).y
    (anchor + tv1 + tv2).y
  obtain ⟨z0, z1, z2, z3⟩ := FloatVal.corner_within anchor.z (anchor + tv1).z (anchor + tv2).z
    (anchor + tv1 + tv2).z
  have c0 : anchor.isOrdered = true → box.contains anchor := by
    intro h
    simp only [float3.isOrdered, Bool.and_eq_true] at h
    exact ⟨(x0 h.1.1).1, (x0 h.1.1).2, (y0 h.1.2).1, (y0 h.1.2).2, (z0 h.2).1, (z0 h.2).2⟩
  have c1 : (anchor + tv1).isOrdered = true → box.contains (anchor + tv1) := by
    intro h
    simp only [float3.isOrdered, Bool.and_eq_true] at h
    exact ⟨(x1 h.1.1).1, (x1 h.1.1).2, (y1 h.1.2).1, (y1 h.1.2).2, (z1 h.2).1, (z1 h.2).2⟩
  have c2 : (anchor + tv2).isOrdered = true → box.contains (anchor + tv2) := by
    intro h
    simp only [float3.isOrdered, Bool.and_eq_true] at h
    exact ⟨(x2 h.1.1).1, (x2 h.1.1).2, (y2 h.1.2).1, (y2 h.1.2).2, (z2 h.2).1, (z2 h.2).2⟩
  have c3 : (anchor + tv1 + tv2).isOrdered = true → box.contains (anchor + tv1 + tv2) := by
    intro h
    simp only [float3.isOrdered, Bool.and_eq_true] at h
    exact ⟨(x3 h.1.1).1, (x3 h.1.1).2, (y3 h.1.2).1, (y3 h.1.2).2, (z3 h.2).1, (z3 h.2).2⟩
  refine ⟨c0, c1, c2, c3, ?_⟩
  rintro (h | h | h | h)
  · exact OptixAabb.min_le_max_of_contains (c0 h)
  · exact OptixAabb.min_le_max_of_contains (c1 h)
  · exact OptixAabb.min_le_max_of_contains (c2 h)
  · exact OptixAabb.min_le_max_of_contains (c3 h)

theorem parallelogram_bound_corners_witness :
    (make_float3 (1 / 2 : ℚ) 4 (-1) + (make_float3 (-1 : ℚ) 0 0).divs
      (dot (make_float3 (-1 : ℚ) 0 0) (make_float3 (-1) 0 0))).isOrdered = true ∧
    (parallelogram_bound (make_float3 (-1 : ℚ) 0 0) (make_float3 0 2 1)
        (make_float3 (1 / 2) 4 (-1))).contains
      (make_float3 (1 / 2 : ℚ) 4 (-1) + (make_float3 (-1 : ℚ) 0 0).divs
        (dot (make_float3 (-1 : ℚ) 0 0) (make_float3 (-1) 0 0))) :=
  ⟨by decide!,
    (parallelogram_bound_corners (make_float3 (-1 : ℚ) 0 0) (make_float3 0 2 1)
      (make_float3 (1 / 2) 4 (-1))).2.1 (by decide!)⟩

/-- Claim C4, counterexample. In binary32 the box is not conservative: for `v1 = (5, 0, 0)`,
`v2 = (0, 2, 0)` and the anchor `(0.5, 0, 0)` the program computes `tv1.x = 5 / 25` as
`13421773 / 2^26` and the corner `0.5 + tv1.x` as `11744051 / 2^24 = 0.69999999`, which is the
`maxX` of the box, so that the surface point at `s = 1`, `t = 0`, whose x is
`0.5 + 1 * (5 / 25) + 0 = 0.7`, lies outside.  And for `v1 = (2^-80, 0, 0)` the point that
float arithmetic computes at `s = t = 0` has `NaN` components and lies in no box. -/
theorem parallelogram_bound_not_conservative :
    make_float3 (5 : ℚ) 0 0 ≠ make_float3 0 0 0 ∧ make_float3 (0 : ℚ) 2 0 ≠ make_float3 0 0 0 ∧
    (make_float3 (5 : ℚ) 0 0).divs (dot (make_float3 (5 : ℚ) 0 0) (make_float3 5 0 0))
      = make_float3 (13421773 / 67108864) 0 0 ∧
    parallelogram_bound (make_float3 (5 : ℚ) 0 0) (make_float3 0 2 0) (make_float3 (1 / 2) 0 0)
      = ⟨num (1 / 2), num 0, num 0, num (11744051 / 16777216), num (1 / 2), num 0⟩ ∧
    ¬ (parallelogram_bound (make_float3 (5 : ℚ) 0 0) (make_float3 0 2 0)
        (make_float3 (1 / 2) 0 0)).contains
      (make_float3 (1 / 2 + 1 * (5 / (5 * 5 + 0 * 0 + 0 * 0)) + 0 * (0 / (0 * 0 + 2 * 2 + 0 * 0)))
        (0 + 1 * (0 / (5 * 5 + 0 * 0 + 0 * 0)) + 0 * (2 / (0 * 0 + 2 * 2 + 0 * 0)))
        (0 + 1 * (0 / (5 * 5 + 0 * 0 + 0 * 0)) + 0 * (0 / (0 * 0 + 2 * 2 + 0 * 0)))) ∧
    make_float3 (pow2 (-80)) 0 0 ≠ make_float3 0 0 0 ∧
    ¬ (parallelogram_bound (make_float3 (pow2 (-80)) 0 0) (make_float3 0 2 0)
        (make_float3 1 2 3)).contains
      (make_float3 1 2 3
        + float3.smul (num 0) ((make_float3 (pow2 (-80)) 0 0).divs
            (dot (make_float3 (pow2 (-80)) 0 0) (make_float3 (pow2 (-80)) 0 0)))
        + float3.smul (num 0) ((make_float3 (0 : ℚ) 2 0).divs
            (dot (make_float3 (0 : ℚ) 2 0) (make_float3 0 2 0)))) := by
  decide!

/-- Claim C4, amended. The box of `parallelogram_bound` is conservative for the quadrilateral
of the four corners as the program computes them: whatever the float format rounds to, if the
computed corners `anchor`, `anchor + tv1`, `anchor + tv2`, `anchor + tv1 + tv2` (with
`tv = v / dot(v, v)`) are the finite points `p00`, `p01`, `p10`, `p11`, then for all `s`, `t`
in `[0, 1]` the point `(1-s)(1-t) p00 + s(1-t) p01 + (1-s)t p10 + st p11` lies within
`[min, max]` componentwise; and where the corners are computed free of rounding error, as
`p00 + u`, `p00 + w` and `p00 + u + w`, the surface point `p00 + s * u + t * w` does. -/
theorem parallelogram_bound_conservative (v1 v2 anchor : float3 K)
    (x0 y0 z0 x1 y1 z1 x2 y2 z2 x3 y3 z3 s t : K)
    (h00 : anchor = make_float3 x0 y0 z0)
    (h01 : anchor + v1.divs (dot v1 v1) = make_float3 x1 y1 z1)
    (h10 : anchor + v2.divs (dot v2 v2) = make_float3 x2 y2 z2)
    (h11 : anchor + v1.divs (dot v1 v1) + v2.divs (dot v2 v2) = make_float3 x3 y3 z3)
    (hs0 : 0 ≤ s) (hs1 : s ≤ 1) (ht0 : 0 ≤ t) (ht1 : t ≤ 1) :
    (parallelogram_bound v1 v2 anchor).contains
      (make_float3 (bilinear s t x0 x1 x2 x3) (bilinear s t y0 y1 y2 y3)
        (bilinear s t z0 z1 z2 z3)) ∧
    ∀ ux uy uz wx wy wz : K,
      make_float3 x1 y1 z1 = make_float3 (x0 + ux) (y0 + uy) (z0 + uz) →
      make_float3 x2 y2 z2 = make_float3 (x0 + wx) (y0 + wy) (z0 + wz) →
      make_float3 x3 y3 z3 = make_float3 (x0 + ux + wx) (y0 + uy + wy) (z0 + uz + wz) →
      (parallelogram_bound v1 v2 anchor).contains
        (make_float3 (x0 + s * ux + t * wx) (y0 + s * uy + t * wy) (z0 + s * uz + t * wz)) := by
  have hbox : parallelogram_bound v1 v2 anchor
      = ⟨num (min (min x0 x1) (min x2 x3)), num (min (min y0 y1) (min y2 y3)),
         num (min (min z0 z1) (min z2 z3)), num (max (max x0 x1) (max x2 x3)),
         num (max (max y0 y1) (max y2 y3)), num (max (max z0 z1) (max z2 z3))⟩ := by
    rw [h01] at h11
    simp only [parallelogram_bound, h01, h11, h10]
    rw [h00]
    rfl
  have hx := bilinear_between x0 x1 x2 x3 s t hs0 hs1 ht0 ht1
  have hy := bilinear_between y0 y1 y2 y3 s t hs0 hs1 ht0 ht1
  have hz := bilinear_between z0 z1 z2 z3 s t hs0 hs1 ht0 ht1
  have main : (parallelogram_bound v1 v2 anchor).contains
      (make_float3 (bilinear s t x0 x1 x2 x3) (bilinear s t y0 y1 y2 y3)
        (bilinear s t z0 z1 z2 z3)) := by
    rw [hbox]
    exact ⟨hx.1, hx.2, hy.1, hy.2, hz.1, hz.2⟩
  refine ⟨main, ?_⟩
  intro ux uy uz wx wy wz e1 e2 e3
  simp only [make_float3, float3.mk.injEq, FloatVal.num.injEq] at e1 e2 e3
  obtain ⟨a1, a2, a3⟩ := e1
  obtain ⟨b1, b2, b3⟩ := e2
  obtain ⟨c1, c2, c3⟩ := e3
  subst a1 a2 a3 b1 b2 b3 c1 c2 c3
  simpa only [bilinear_parallelogram] using main

theorem parallelogram_bound_conservative_witness :
    make_float3 (1 : ℚ) 1 1 + (make_float3 (2 : ℚ) 0 0).divs
        (dot (make_float3 (2 : ℚ) 0 0) (make_float3 2 0 0)) = make_float3 (3 / 2) 1 1 ∧
    make_float3 (1 : ℚ) 1 1 + (make_float3 (0 : ℚ) 4 0).divs
        (dot (make_float3 (0 : ℚ) 4 0) (make_float3 0 4 0)) = make_float3 1 (5 / 4) 1 ∧
    (0 : ℚ) ≤ 1 / 3 ∧ (1 / 3 : ℚ) ≤ 1 ∧ (0 : ℚ) ≤ 3 / 4 ∧ (3 / 4 : ℚ) ≤ 1 ∧
    (parallelogram_bound (make_float3 (2 : ℚ) 0 0) (make_float3 0 4 0)
        (make_float3 1 1 1)).contains
      (make_float3 (bilinear (1 / 3) (3 / 4) 1 (3 / 2) 1 (3 / 2))
        (bilinear (1 / 3) (3 / 4) 1 1 (5 / 4) (5 / 4)) (bilinear (1 / 3) (3 / 4) 1 1 1 1)) :=
  ⟨by decide!, by decide!, by norm_num, by norm_num, by norm_num, by norm_num,
    (parallelogram_bound_conservative (make_float3 (2 : ℚ) 0 0) (make_float3 0 4 0)
      (make_float3 1 1 1) 1 1 1 (3 / 2) 1 1 1 (5 / 4) 1 (3 / 2) (5 / 4) 1 (1 / 3) (3 / 4)
      rfl (by decide!) (by decide!) (by decide!)
      (by norm_num) (by norm_num) (by norm_num) (by norm_num)).1⟩

/-- Claim C5. The bounding-box computation never fails: `parallelogram_bound` is a total
function of `v1`, `v2` and `anchor` (a division by `dot(v, v) = 0` yields an infinity or `NaN`,
which `fminf` and `fmaxf` pass over), and for all `v1`, `v2`, zero-length or not, and every
anchor without `NaN` the result is a box: no bound is `NaN`, `min ≤ max` in x, y and z, and the
anchor lies within it. -/
theorem parallelogram_bound_never_fails (v1 v2 anchor : float3 K)
    (ha : anchor.isOrdered = true) :
    let box := parallelogram_bound v1 v2 anchor
    box.isOrdered = true ∧ (box.minX ≤ box.maxX ∧ box.minY ≤ box.maxY ∧ box.minZ ≤ box.maxZ) ∧
    box.contains anchor := by
  obtain ⟨ho, hc⟩ := parallelogram_bound_ordered v1 v2 anchor ha
  obtain ⟨c1, c2, c3, c4, c5, c6⟩ := hc
  exact ⟨ho, ⟨le_trans_float c1 c2, le_trans_float c3 c4, le_trans_float c5 c6⟩,
    c1, c2, c3, c4, c5, c6⟩

theorem parallelogram_bound_never_fails_witness :
    (make_float3 (1 : ℚ) 2 3).isOrdered = true ∧
    parallelogram_bound (make_float3 (0 : ℚ) 0 0) (make_float3 0 2 0) (make_float3 1 2 3)
      = ⟨num 1, num 2, num 3, num 1, num (5 / 2), num 3⟩ ∧
    (parallelogram_bound (make_float3 (0 : ℚ) 0 0) (make_float3 0 2 0)
      (make_float3 1 2 3)).isOrdered = true :=
  ⟨rfl, by decide!,
    (parallelogram_bound_never_fails (make_float3 (0 : ℚ) 0 0) (make_float3 0 2 0)
      (make_float3 1 2 3) rfl).1⟩

end ParallelogramBound

section CreateGeometry

variable {K : Type} [LinearOrderedField K] [FloatFormat K]

open FloatVal

/-- Claim C6. The aggregate `scene_aabb` that `createGeometry` computes contains the AABB of
every one of the `OBJ_COUNT` objects (its minimum is `≤` every object's minimum and its maximum
is `≥` every object's maximum, in x, y and z), and each of its six bounds is attained by some
object's AABB; the objects are any four parallelograms whose anchors have no `NaN`. -/
theorem createGeometry_scene_aabb (heliostat1 heliostat2 heliostat3 receiver : Parallelogram K)
    (h1 : heliostat1.anchor.isOrdered = true) (h2 : heliostat2.anchor.isOrdered = true)
    (h3 : heliostat3.anchor.isOrdered = true) (h4 : receiver.anchor.isOrdered = true) :
    let aabb := createGeometry_aabb heliostat1 heliostat2 heliostat3 receiver
    let scene := createGeometry heliostat1 heliostat2 heliostat3 receiver
    aabb.length = OBJ_COUNT ∧ (∀ b ∈ aabb, scene.encloses b) ∧
    (∃ b ∈ aabb, scene.minX = b.minX) ∧ (∃ b ∈ aabb, scene.minY = b.minY) ∧
    (∃ b ∈ aabb, scene.minZ = b.minZ) ∧ (∃ b ∈ aabb, scene.maxX = b.maxX) ∧
    (∃ b ∈ aabb, scene.maxY = b.maxY) ∧ (∃ b ∈ aabb, scene.maxZ = b.maxZ) := by
  refine ⟨rfl, ?_⟩
  simp only [createGeometry, createGeometry_aabb, scene_aabb_of, OBJ_COUNT, List.getD_cons_zero,
    List.take, List.drop, List.foldl, createGeometry_step, float3.fminf, float3.fmaxf,
    OptixAabb.encloses, List.mem_cons, List.mem_singleton, forall_eq_or_imp, forall_eq,
    exists_eq_or_imp, exists_eq_left, List.not_mem_nil, false_and, exists_false, or_false,
    false_imp_iff, implies_true, and_true]
  have o1 := (parallelogram_bound_ordered heliostat1.v1 heliostat1.v2 heliostat1.anchor h1).1
  have o2 := (parallelogram_bound_ordered heliostat2.v1 heliostat2.v2 heliostat2.anchor h2).1
  have o3 := (parallelogram_bound_ordered heliostat3.v1 heliostat3.v2 heliostat3.anchor h3).1
  have o4 := (parallelogram_bound_ordered receiver.v1 receiver.v2 receiver.anchor h4).1
  generalize parallelogram_bound heliostat1.v1 heliostat1.v2 heliostat1.anchor = b1 at o1 ⊢
  generalize parallelogram_bound heliostat2.v1 heliostat2.v2 heliostat2.anchor = b2 at o2 ⊢
  generalize parallelogram_bound heliostat3.v1 heliostat3.v2 heliostat3.anchor = b3 at o3 ⊢
  generalize parallelogram_bound receiver.v1 receiver.v2 receiver.anchor = b4 at o4 ⊢
  simp only [OptixAabb.isOrdered, Bool.and_eq_true] at o1 o2 o3 o4
  obtain ⟨⟨⟨⟨⟨a1, a2⟩, a3⟩, a4⟩, a5⟩, a6⟩ := o1
  obtain ⟨⟨⟨⟨⟨b1', b2'⟩, b3'⟩, b4'⟩, b5'⟩, b6'⟩ := o2
  obtain ⟨⟨⟨⟨⟨c1, c2⟩, c3⟩, c4⟩, c5⟩, c6⟩ := o3
  obtain ⟨⟨⟨⟨⟨d1, d2⟩, d3⟩, d4⟩, d5⟩, d6⟩ := o4
  obtain ⟨⟨x1, x2, x3, x4⟩, x5⟩ := FloatVal.four_fminf a1 b1' c1 d1
  obtain ⟨⟨y1, y2, y3, y4⟩, y5⟩ := FloatVal.four_fminf a2 b2' c2 d2
  obtain ⟨⟨z1, z2, z3, z4⟩, z5⟩ := FloatVal.four_fminf a3 b3' c3 d3
  obtain ⟨⟨u1, u2, u3, u4⟩, u5⟩ := FloatVal.four_fmaxf a4 b4' c4 d4
  obtain ⟨⟨v1, v2, v3, v4⟩, v5⟩ := FloatVal.four_fmaxf a5 b5' c5 d5
  obtain ⟨⟨w1, w2, w3, w4⟩, w5⟩ := FloatVal.four_fmaxf a6 b6' c6 d6
  exact ⟨⟨⟨x1, y1, z1, u1, v1, w1⟩, ⟨x2, y2, z2, u2, v2, w2⟩, ⟨x3, y3, z3, u3, v3, w3⟩,
    ⟨x4, y4, z4, u4, v4, w4⟩⟩, x5, y5, z5, u5, v5, w5⟩

theorem createGeometry_scene_aabb_witness :
    (make_float3 (1 / 2 : ℚ) 4 0).isOrdered = true ∧
    ∀ b ∈ createGeometry_aabb
        (⟨make_float3 (-1 : ℚ) 0 0, make_float3 0 2 1, make_float3 (1 / 2) 4 0⟩ : Parallelogram ℚ)
        ⟨make_float3 0 1 0, make_float3 2 0 1, make_float3 4 (-1 / 2) 0⟩
        ⟨make_float3 0 (-1) 0, make_float3 (-2) 0 1, make_float3 (-4) (1 / 2) 0⟩
        ⟨make_float3 2 0 0, make_float3 0 2 1, make_float3 (-1) (-1) 9⟩,
      (createGeometry
        (⟨make_float3 (-1 : ℚ) 0 0, make_float3 0 2 1, make_float3 (1 / 2) 4 0⟩ : Parallelogram ℚ)
        ⟨make_float3 0 1 0, make_float3 2 0 1, make_float3 4 (-1 / 2) 0⟩
        ⟨make_float3 0 (-1) 0, make_float3 (-2) 0 1, make_float3 (-4) (1 / 2) 0⟩
        ⟨make_float3 2 0 0, make_float3 0 2 1, make_float3 (-1) (-1) 9⟩).encloses b :=
  ⟨rfl,
    (createGeometry_scene_aabb
      (⟨make_float3 (-1 : ℚ) 0 0, make_float3 0 2 1, make_float3 (1 / 2) 4 0⟩ : Parallelogram ℚ)
      ⟨make_float3 0 1 0, make_float3 2 0 1, make_float3 4 (-1 / 2) 0⟩
      ⟨make_float3 0 (-1) 0, make_float3 (-2) 0 1, make_float3 (-4) (1 / 2) 0⟩
      ⟨make_float3 2 0 0, make_float3 0 2 1, make_float3 (-1) (-1) 9⟩ rfl rfl rfl rfl).2.1⟩

end CreateGeometry

section Orientation

variable {K : Type} [LinearOrderedField K]

/-- A right-handed frame built from a unit vector `d` and a unit vector `x0` orthogonal to it,
rotated by an angle with cosine `c` and sine `s` about `d`, is orthonormal. -/
theorem frame_orthonormal (d x0 : Vec3d K) (c s : K) (hd : d.dot d = 1) (hx : x0.dot x0 = 1)
    (hxd : x0.dot d = 0) (hcs : c * c + s * s = 1) :
    (⟨(Vec3d.smul c x0).add (Vec3d.smul s (d.cross x0)),
      (Vec3d.smul (-s) x0).add (Vec3d.smul c (d.cross x0)), d⟩ : Matrix33d K).IsOrthonormal := by
  rcases d with ⟨d1, d2, d3⟩
  rcases x0 with ⟨x1, x2, x3⟩
  simp only [Vec3d.dot] at hd hx hxd
  simp only [Matrix33d.IsOrthonormal, Matrix33d.det, Vec3d.dot, Vec3d.cross, Vec3d.add,
    Vec3d.smul]
  refine ⟨?_, ?_, ?_, ?_, ?_, ?_, ?_⟩
  · linear_combination (c * c + s * s) * hx + (s * s * (x1 * x1 + x2 * x2 + x3 * x3)) * hd
      - (s * s * (x1 * d1 + x2 * d2 + x3 * d3)) * hxd + hcs
  · linear_combination (c * c + s * s) * hx + (c * c * (x1 * x1 + x2 * x2 + x3 * x3)) * hd
      - (c * c * (x1 * d1 + x2 * d2 + x3 * d3)) * hxd + hcs
  · linear_combination hd
  · linear_combination (c * s * (x1 * x1 + x2 * x2 + x3 * x3)) * hd
      - (c * s * (x1 * d1 + x2 * d2 + x3 * d3)) * hxd
  · linear_combination c * hxd
  · linear_combination (-s) * hxd
  · linear_combination ((c * c + s * s) * (x1 * x1 + x2 * x2 + x3 * x3)) * hd
      + (c * c + s * s) * hx - ((c * c + s * s) * (x1 * d1 + x2 * d2 + x3 * d3)) * hxd + hcs

/-- A vector divided by an exact non-zero length has unit length. -/
theorem normalized_unit (M : MathUtil K) (v : Vec3d K) (hn : v.norm M * v.norm M = v.dot v)
    (h0 : v.norm M ≠ 0) : (v.normalized M).dot (v.normalized M) = 1 := by
  simp only [Vec3d.normalized, Vec3d.dot] at hn ⊢
  field_simp
  linear_combination - hn

/-- The cross product of the reference up-vector and a unit direction is not zero. -/
theorem cross_up_ne_zero (M : MathUtil K) (d : Vec3d K) (hd : d.dot d = 1)
    (ht0 : 0 ≤ M.parallel_tol) (ht1 : M.parallel_tol < 1) :
    ((up_reference M d).cross d).dot ((up_reference M d).cross d) ≠ 0 := by
  rcases d with ⟨d1, d2, d3⟩
  simp only [Vec3d.dot] at hd
  unfold up_reference
  split_ifs with h
  · simp only [Vec3d.cross, Vec3d.dot]
    have h2 : 0 < |d2| := lt_of_lt_of_le (by linarith) h
    have h3 : d2 ≠ 0 := abs_pos.1 h2
    have h4 : 0 < d2 * d2 := mul_self_pos.2 h3
    nlinarith [mul_self_nonneg d3]
  · simp only [Vec3d.cross, Vec3d.dot]
    have h2 : |d2| < 1 := by linarith [not_le.1 h]
    have h3 : d2 * d2 < 1 := by
      have := abs_lt.1 h2
      nlinarith
    nlinarith

/-- The matrix that the orientation algorithm derives is orthonormal, and its third column is
the normalized direction from the origin to the aim point. -/
theorem derive_orientation_spec (M : MathUtil K) (origin aim_point : Vec3d K) (zrot : K)
    (hM : M.ExactFor origin aim_point zrot) (R : Matrix33d K)
    (h : derive_orientation M origin aim_point zrot = Except.ok R) :
    R.IsOrthonormal ∧ R.col2 = (aim_point.sub origin).normalized M := by
  obtain ⟨he, ht0, ht1, hn, hw, hcs⟩ := hM
  unfold derive_orientation at h
  simp only at h
  split_ifs at h with hg
  have hn0 : (aim_point.sub origin).norm M ≠ 0 := by
    have := not_lt.1 hg
    exact ne_of_gt (lt_of_lt_of_le he this)
  have hd := normalized_unit M _ hn hn0
  have hw0 := cross_up_ne_zero M _ hd ht0 ht1
  have hm0 : ((up_reference M ((aim_point.sub origin).normalized M)).cross
      ((aim_point.sub origin).normalized M)).norm M ≠ 0 := by
    intro h0
    rw [h0, mul_zero] at hw
    exact hw0 hw.symm
  have hx := normalized_unit M _ hw hm0
  have hxd : (initial_x M ((aim_point.sub origin).normalized M)).dot
      ((aim_point.sub origin).normalized M) = 0 := by
    unfold initial_x
    generalize (aim_point.sub origin).normalized M = d at hm0 ⊢
    generalize up_reference M d = u at hm0 ⊢
    generalize (u.cross d).norm M = m at hm0 ⊢
    simp only [Vec3d.normalized, Vec3d.cross, Vec3d.dot]
    ring
  injection h with h
  subst h
  exact ⟨frame_orthonormal _ _ _ _ hd hx hxd hcs, rfl⟩

/-- The orientation algorithm succeeds as soon as the distance from the origin to the aim point
reaches `epsilon`, and fails with `DegenerateDirection` below it. -/
theorem derive_orientation_ok_iff (M : MathUtil K) (origin aim_point : Vec3d K) (zrot : K) :
    (M.epsilon ≤ (aim_point.sub origin).norm M →
      ∃ R, derive_orientation M origin aim_point zrot = Except.ok R) ∧
    ((aim_point.sub origin).norm M < M.epsilon →
      derive_orientation M origin aim_point zrot = Except.error Error.DegenerateDirection) := by
  unfold derive_orientation
  constructor
  · intro h
    simp only [not_lt.2 h, if_false]
    exact ⟨_, rfl⟩
  · intro h
    simp only [h, if_true]

/-- Claim C1. For every origin, aim point and zrot at which the numeric primitives are exact:
the orientation is derived (`update_euler_angles` succeeds) as soon as the aim point differs
from the origin by at least `epsilon`, and once it has been derived `get_rotation_matrix()`
returns a matrix whose three columns have unit length, are mutually orthogonal and whose
determinant is +1. -/
theorem rotation_matrix_orthonormal (M : MathUtil K) (e : CspElement K)
    (hM : M.ExactFor e.m_origin e.m_aim_point e.m_zrot) :
    (M.epsilon ≤ (e.m_aim_point.sub e.m_origin).norm M →
      ∃ e1, e.update_euler_angles M = Except.ok e1) ∧
    ∀ e1, e.update_euler_angles M = Except.ok e1 →
      ∃ R, e1.get_rotation_matrix M = Except.ok R ∧ R.IsOrthonormal := by
  constructor
  · intro h
    obtain ⟨R, hR⟩ :=
      (derive_orientation_ok_iff M e.m_origin e.m_aim_point e.m_zrot).1 h
    refine ⟨{ e with m_rotation := some R, m_euler_angles := M.euler_of R,
                     m_box_valid := false }, ?_⟩
    simp only [CspElement.update_euler_angles, hR]
  · intro e1 h
    unfold CspElement.update_euler_angles at h
    split at h
    · cases h
    · rename_i R hR
      injection h with h
      subst h
      exact ⟨R, rfl, (derive_orientation_spec M _ _ _ hM R hR).1⟩

theorem rotation_matrix_orthonormal_witness :
    table_math.ExactFor demo_e1.m_origin demo_e1.m_aim_point demo_e1.m_zrot ∧
    demo_e1.m_aim_point ≠ demo_e1.m_origin ∧
    (∃ e1, demo_e1.update_euler_angles table_math = Except.ok e1) ∧
    ∀ e1, demo_e1.update_euler_angles table_math = Except.ok e1 →
      ∃ R, e1.get_rotation_matrix table_math = Except.ok R ∧ R.IsOrthonormal :=
  have hM : table_math.ExactFor demo_e1.m_origin demo_e1.m_aim_point demo_e1.m_zrot := by
    norm_num [MathUtil.ExactFor, table_math, demo_e1, CspElement.new, CspElement.set_origin,
      CspElement.set_aim_point, CspElement.set_surface, CspElement.set_aperture, Vec3d.sub,
      Vec3d.norm, Vec3d.dot, Vec3d.normalized, Vec3d.cross, up_reference]
  ⟨hM, by decide,
    (rotation_matrix_orthonormal table_math demo_e1 hM).1 (by
      norm_num [table_math, demo_e1, CspElement.new, CspElement.set_origin,
        CspElement.set_aim_point, CspElement.set_surface, CspElement.set_aperture, Vec3d.sub,
        Vec3d.norm, Vec3d.dot]),
    (rotation_matrix_orthonormal table_math demo_e1 hM).2⟩

/-- What `update_euler_angles` stores: the derived matrix, which the next
`get_rotation_matrix()` returns. -/
theorem update_euler_angles_ok (M : MathUtil K) (e e1 : CspElement K)
    (h : e.update_euler_angles M = Except.ok e1) :
    ∃ R, derive_orientation M e.m_origin e.m_aim_point e.m_zrot = Except.ok R ∧
      e1.get_rotation_matrix M = Except.ok R ∧ e1.m_origin = e.m_origin ∧
      e1.m_aperture = e.m_aperture := by
  unfold CspElement.update_euler_angles at h
  split at h
  · cases h
  · rename_i R hR
    injection h with h
    subst h
    exact ⟨R, hR, rfl, rfl, rfl⟩

/-- Claim C7. Once the orientation of an element with origin `O` and aim point `A` has been
derived, the third column of its rotation matrix, which is the image of local +z in global
coordinates, is `normalize(A - O)`; and for origin (0,0,0), aim point (0,0,10) and zrot 0 (with
`sqrt 100 = 10` and `epsilon ≤ 10`) the orientation is derived and the third column is
(0,0,1). -/
theorem rotation_third_column (M : MathUtil K) (e : CspElement K) :
    (∀ e1, e.update_euler_angles M = Except.ok e1 →
      ∃ R, e1.get_rotation_matrix M = Except.ok R ∧
        R.col2 = (e.m_aim_point.sub e.m_origin).normalized M ∧
        R.mulVec ⟨0, 0, 1⟩ = (e.m_aim_point.sub e.m_origin).normalized M) ∧
    (e.m_origin = ⟨0, 0, 0⟩ → e.m_aim_point = ⟨0, 0, 10⟩ → e.m_zrot = 0 →
      M.sqrt 100 = 10 → M.epsilon ≤ 10 →
      ∃ e1 R, e.update_euler_angles M = Except.ok e1 ∧
        e1.get_rotation_matrix M = Except.ok R ∧ R.col2 = ⟨0, 0, 1⟩) := by
  have key : ∀ e1, e.update_euler_angles M = Except.ok e1 →
      ∃ R, e1.get_rotation_matrix M = Except.ok R ∧
        R.col2 = (e.m_aim_point.sub e.m_origin).normalized M := by
    intro e1 h
    obtain ⟨R, hR, hget, -, -⟩ := update_euler_angles_ok M e e1 h
    refine ⟨R, hget, ?_⟩
    unfold derive_orientation at hR
    simp only at hR
    split_ifs at hR
    injection hR with hR
    subst hR
    rfl
  constructor
  · intro e1 h
    obtain ⟨R, hget, hc⟩ := key e1 h
    refine ⟨R, hget, hc, ?_⟩
    rw [← hc]
    rcases R with ⟨⟨a1, a2, a3⟩, ⟨b1, b2, b3⟩, ⟨c1, c2, c3⟩⟩
    simp [Matrix33d.mulVec, Vec3d.smul, Vec3d.add]
  · intro hO hA _ hs he
    have hnorm : (e.m_aim_point.sub e.m_origin).norm M = 10 := by
      rw [hO, hA]
      simp only [Vec3d.norm, Vec3d.sub, Vec3d.dot]
      norm_num
      exact hs
    have hok := (derive_orientation_ok_iff M e.m_origin e.m_aim_point e.m_zrot).1
      (by rw [hnorm]; exact he)
    obtain ⟨R0, hR0⟩ := hok
    have hup : e.update_euler_angles M = Except.ok
        { e with m_rotation := some R0, m_euler_angles := M.euler_of R0,
                 m_box_valid := false } := by
      simp only [CspElement.update_euler_angles, hR0]
    obtain ⟨R, hget, hc⟩ := key _ hup
    refine ⟨_, R, hup, hget, ?_⟩
    rw [hc]
    simp only [Vec3d.normalized, hnorm]
    rw [hO, hA]
    simp [Vec3d.sub]

theorem rotation_third_column_witness :
    demo_e1.m_origin = ⟨0, 0, 0⟩ ∧ demo_e1.m_aim_point = ⟨0, 0, 10⟩ ∧ demo_e1.m_zrot = 0 ∧
    table_math.sqrt 100 = 10 ∧ table_math.epsilon ≤ 10 ∧
    ∃ e1 R, demo_e1.update_euler_angles table_math = Except.ok e1 ∧
      e1.get_rotation_matrix table_math = Except.ok R ∧ R.col2 = ⟨0, 0, 1⟩ :=
  ⟨rfl, rfl, rfl, by norm_num [table_math], by norm_num [table_math],
    (rotation_third_column table_math demo_e1).2 rfl rfl rfl (by norm_num [table_math])
      (by norm_num [table_math])⟩

/-- For an orthonormal matrix, the local coordinates of the global point of `q` are `q`. -/
theorem to_local_to_global (R : Matrix33d K) (hR : R.IsOrthonormal) (origin q : Vec3d K) :
    to_local R origin (to_global R origin q) = q := by
  obtain ⟨h00, h11, h22, h01, h02, h12, -⟩ := hR
  rcases R with ⟨⟨a1, a2, a3⟩, ⟨b1, b2, b3⟩, ⟨c1, c2, c3⟩⟩
  rcases q with ⟨x, y, z⟩
  rcases origin with ⟨o1, o2, o3⟩
  simp only [Vec3d.dot] at h00 h11 h22 h01 h02 h12
  simp only [to_local, to_global, Matrix33d.transposeMulVec, Matrix33d.mulVec, Vec3d.dot,
    Vec3d.add, Vec3d.sub, Vec3d.smul, Vec3d.mk.injEq]
  refine ⟨?_, ?_, ?_⟩
  · linear_combination x * h00 + y * h01 + z * h02
  · linear_combination x * h01 + y * h11 + z * h12
  · linear_combination x * h02 + y * h12 + z * h22

/-- Claim C8. For an element whose orientation has been derived and whose aperture is
`ApertureRectangle(dim_x, dim_y)`, `in_plane(p)` is true exactly when the coordinates of `p` in
the element's local frame satisfy `|x| ≤ dim_x/2` and `|y| ≤ dim_y/2`, both for a global point
`p` and for the point given by its local coordinates; with `dim_x = 2` and `dim_y = 4` it is
true at local (0,0) and false at local (1.01,0) and at local (0,2.01). -/
theorem in_plane_rectangle (M : MathUtil K) (e0 e : CspElement K) (dim_x dim_y : K)
    (hM : M.ExactFor e0.m_origin e0.m_aim_point e0.m_zrot)
    (hup : e0.update_euler_angles M = Except.ok e)
    (hap : e.m_aperture = some (Aperture.ApertureRectangle dim_x dim_y)) :
    ∃ R, e.get_rotation_matrix M = Except.ok R ∧
      (∀ p, e.in_plane M p = Except.ok (decide (|(to_local R e.m_origin p).x| ≤ dim_x / 2 ∧
        |(to_local R e.m_origin p).y| ≤ dim_y / 2))) ∧
      (∀ x y z, e.in_plane M (to_global R e.m_origin ⟨x, y, z⟩)
        = Except.ok (decide (|x| ≤ dim_x / 2 ∧ |y| ≤ dim_y / 2))) ∧
      (dim_x = 2 → dim_y = 4 →
        e.in_plane M (to_global R e.m_origin ⟨0, 0, 0⟩) = Except.ok true ∧
        e.in_plane M (to_global R e.m_origin ⟨101 / 100, 0, 0⟩) = Except.ok false ∧
        e.in_plane M (to_global R e.m_origin ⟨0, 201 / 100, 0⟩) = Except.ok false) := by
  obtain ⟨R, hR, hget, -, -⟩ := update_euler_angles_ok M e0 e hup
  have hort := (derive_orientation_spec M _ _ _ hM R hR).1
  have h1 : ∀ p, e.in_plane M p = Except.ok (decide (|(to_local R e.m_origin p).x| ≤ dim_x / 2 ∧
      |(to_local R e.m_origin p).y| ≤ dim_y / 2)) := by
    intro p
    simp only [CspElement.in_plane, hget, hap, Aperture.contains, Bool.decide_and]
  have h2 : ∀ x y z, e.in_plane M (to_global R e.m_origin ⟨x, y, z⟩)
      = Except.ok (decide (|x| ≤ dim_x / 2 ∧ |y| ≤ dim_y / 2)) := by
    intro x y z
    rw [h1, to_local_to_global R hort]
  refine ⟨R, hget, h1, h2, ?_⟩
  intro hx hy
  subst hx hy
  refine ⟨?_, ?_, ?_⟩
  · rw [h2]
    congr 1
    simp only [decide_eq_true_eq]
    norm_num
  · rw [h2]
    congr 1
    simp only [decide_eq_false_iff_not]
    rw [abs_of_nonneg (by norm_num : (0 : K) ≤ 101 / 100)]
    norm_num
  · rw [h2]
    congr 1
    simp only [decide_eq_false_iff_not]
    rw [abs_of_nonneg (by norm_num : (0 : K) ≤ 201 / 100)]
    norm_num

theorem in_plane_rectangle_witness :
    table_math.ExactFor demo_receiver.m_origin demo_receiver.m_aim_point demo_receiver.m_zrot ∧
    demo_receiver.update_euler_angles table_math
      = Except.ok { demo_receiver with
          m_rotation := some ⟨⟨1, 0, 0⟩, ⟨0, 1, 0⟩, ⟨0, 0, 1⟩⟩, m_euler_angles := ⟨0, 0, 0⟩ } ∧
    ∃ R, CspElement.get_rotation_matrix table_math { demo_receiver with
          m_rotation := some ⟨⟨1, 0, 0⟩, ⟨0, 1, 0⟩, ⟨0, 0, 1⟩⟩, m_euler_angles := ⟨0, 0, 0⟩ }
        = Except.ok R :=
  have hM : table_math.ExactFor demo_receiver.m_origin demo_receiver.m_aim_point
      demo_receiver.m_zrot := by
    norm_num [MathUtil.ExactFor, table_math, demo_receiver, CspElement.new,
      CspElement.set_origin, CspElement.set_aim_point, CspElement.set_zrot,
      CspElement.set_surface, CspElement.set_aperture, Vec3d.sub,
      Vec3d.norm, Vec3d.dot, Vec3d.normalized, Vec3d.cross, up_reference]
  have hup : demo_receiver.update_euler_angles table_math
      = Except.ok { demo_receiver with
          m_rotation := some ⟨⟨1, 0, 0⟩, ⟨0, 1, 0⟩, ⟨0, 0, 1⟩⟩, m_euler_angles := ⟨0, 0, 0⟩ } := by
    norm_num [CspElement.update_euler_angles, derive_orientation, initial_x, table_math,
      demo_receiver, CspElement.new, CspElement.set_origin, CspElement.set_aim_point,
      CspElement.set_zrot, CspElement.set_surface, CspElement.set_aperture, Vec3d.sub,
      Vec3d.norm, Vec3d.dot, Vec3d.normalized, Vec3d.cross, Vec3d.smul, Vec3d.add,
      up_reference]
  ⟨hM, hup, (in_plane_rectangle table_math demo_receiver _ 2 4 hM hup rfl).imp
    fun _ h => h.1⟩

end Orientation

section SceneLifecycle

variable {K : Type} [LinearOrderedField K]

/-- Both `run()` and `get_num_hits_receiver()` fail with `NotInitialized` in a scene whose state
is not `Initialized`. -/
theorem not_initialized_fails (M : MathUtil K) (E : Engine K) (s : SolTraceSystem K)
    (h : s.state ≠ Lifecycle.Initialized) :
    s.run E = Except.error Error.NotInitialized ∧
    s.get_num_hits_receiver M = Except.error Error.NotInitialized := by
  simp only [SolTraceSystem.run, SolTraceSystem.get_num_hits_receiver, h, if_false, and_self]

/-- No operation other than `initialize` makes a scene `Initialized`. -/
theorem step_not_initialized (M : MathUtil K) (E : Engine K) (s : SolTraceSystem K)
    (op : SceneOp K) (h : s.state ≠ Lifecycle.Initialized) (hop : op ≠ SceneOp.init) :
    (s.step M E op).state ≠ Lifecycle.Initialized := by
  cases op
  · exact h
  · exact h
  · exact h
  · exact absurd rfl hop
  · simp only [SolTraceSystem.step, SolTraceSystem.run, h, if_false]
    exact h
  · simp only [SolTraceSystem.step, SolTraceSystem.update]
    split
    · rename_i s1 h1
      split at h1
      · cases h1
      · injection h1 with h1
        subst h1
        exact h
    · exact h
  · exact h
  · simp [SolTraceSystem.step, SolTraceSystem.clean_up]

/-- The state `CleanedUp` is terminal: every operation leaves it. -/
theorem step_cleaned_up (M : MathUtil K) (E : Engine K) (s : SolTraceSystem K)
    (op : SceneOp K) (h : s.state = Lifecycle.CleanedUp) :
    (s.step M E op).state = Lifecycle.CleanedUp := by
  cases op
  · exact h
  · exact h
  · exact h
  · simp only [SolTraceSystem.step, SolTraceSystem.initialize, h, if_true]
    split
    · rename_i s1 h1
      split_ifs at h1
    · exact h
  · simp only [SolTraceSystem.step, SolTraceSystem.run, h]
    exact h
  · simp only [SolTraceSystem.step, SolTraceSystem.update]
    split
    · rename_i s1 h1
      split at h1
      · cases h1
      · injection h1 with h1
        subst h1
        exact h
    · exact h
  · exact h
  · rfl

theorem exec_not_initialized (M : MathUtil K) (E : Engine K) (ops : List (SceneOp K))
    (s : SolTraceSystem K) (h : s.state ≠ Lifecycle.Initialized)
    (hops : ∀ op ∈ ops, op ≠ SceneOp.init) :
    (s.exec M E ops).state ≠ Lifecycle.Initialized := by
  induction ops generalizing s with
  | nil => exact h
  | cons op rest ih =>
    simp only [SolTraceSystem.exec, List.foldl_cons]
    exact ih _ (step_not_initialized M E s op h (hops op (List.mem_cons_self _ _)))
      (fun o ho => hops o (List.mem_cons_of_mem _ ho))

theorem exec_cleaned_up (M : MathUtil K) (E : Engine K) (ops : List (SceneOp K))
    (s : SolTraceSystem K) (h : s.state = Lifecycle.CleanedUp) :
    (s.exec M E ops).state = Lifecycle.CleanedUp := by
  induction ops generalizing s with
  | nil => exact h
  | cons op rest ih =>
    simp only [SolTraceSystem.exec, List.foldl_cons]
    exact ih _ (step_cleaned_up M E s op h)

/-- Claim C10. `run()` and `get_num_hits_receiver()` fail with `NotInitialized` whenever the
scene is not in the state `Initialized`; in every sequence of scene operations they fail so
before the first `initialize()` (after any operations on a new scene none of which is
`initialize`), and at any point after `clean_up()` (after `clean_up` followed by any
operations, `initialize` included). -/
theorem run_requires_initialized (M : MathUtil K) (E : Engine K) :
    (∀ s : SolTraceSystem K, s.state ≠ Lifecycle.Initialized →
      s.run E = Except.error Error.NotInitialized ∧
      s.get_num_hits_receiver M = Except.error Error.NotInitialized) ∧
    (∀ (n : Nat) (ops : List (SceneOp K)), (∀ op ∈ ops, op ≠ SceneOp.init) →
      ((SolTraceSystem.new n).exec M E ops).run E = Except.error Error.NotInitialized ∧
      ((SolTraceSystem.new n).exec M E ops).get_num_hits_receiver M
        = Except.error Error.NotInitialized) ∧
    (∀ (s : SolTraceSystem K) (ops : List (SceneOp K)),
      (s.clean_up.exec M E ops).run E = Except.error Error.NotInitialized ∧
      (s.clean_up.exec M E ops).get_num_hits_receiver M
        = Except.error Error.NotInitialized) := by
  refine ⟨fun s h => not_initialized_fails M E s h, ?_, ?_⟩
  · intro n ops hops
    apply not_initialized_fails
    apply exec_not_initialized M E ops _ _ hops
    simp [SolTraceSystem.new]
  · intro s ops
    apply not_initialized_fails
    rw [exec_cleaned_up M E ops s.clean_up rfl]
    decide

theorem run_requires_initialized_witness :
    (∀ op ∈ [SceneOp.add_element demo_e1, SceneOp.run, SceneOp.update],
      op ≠ SceneOp.init) ∧
    ((SolTraceSystem.new 1000).exec table_math ⟨fun _ _ _ _ => some []⟩
      [SceneOp.add_element demo_e1, SceneOp.run, SceneOp.update]).run
        ⟨fun _ _ _ _ => some []⟩ = Except.error Error.NotInitialized ∧
    (((SolTraceSystem.new 1000).add_element (demo_receiver.set_receiver true)).clean_up.exec
      table_math ⟨fun _ _ _ _ => some []⟩ [SceneOp.init, SceneOp.run]).run
        ⟨fun _ _ _ _ => some []⟩ = Except.error Error.NotInitialized :=
  have h1 : ∀ op ∈ [SceneOp.add_element demo_e1, SceneOp.run, SceneOp.update],
      op ≠ SceneOp.init := by
    intro op hop
    simp only [List.mem_cons, List.mem_singleton, List.not_mem_nil, or_false] at hop
    rcases hop with rfl | rfl | rfl <;> exact fun h => SceneOp.noConfusion h
  ⟨h1,
    ((run_requires_initialized table_math ⟨fun _ _ _ _ => some []⟩).2.1 1000 _ h1).1,
    ((run_requires_initialized table_math ⟨fun _ _ _ _ => some []⟩).2.2 _ _).1⟩

end SceneLifecycle

section SurfaceTheorems

variable {K : Type} [LinearOrderedField K]

/-- Claim C12, counterexample. A surface is not immutable: `set_curvature(0.05, 0.05)` on a
default-constructed `SurfaceParabolic`, as demo_parabolic_surface.cpp calls it, changes the
curvatures that the surface reports from 0 to 0.05. -/
theorem surface_not_immutable :
    Surface.apply (SurfaceOp.set_curvature (5 / 100) (5 / 100))
        (SurfaceParabolic.new.toSurface : Surface ℚ)
      = some (Surface.SurfaceParabolic (5 / 100) (5 / 100)) ∧
    (SurfaceParabolic.new.toSurface : Surface ℚ).reported = (0, 0, none, none) ∧
    (Surface.SurfaceParabolic (5 / 100) (5 / 100) : Surface ℚ).reported
      = (5 / 100, 5 / 100, none, none) ∧
    (Surface.SurfaceParabolic (5 / 100) (5 / 100) : Surface ℚ).reported
      ≠ (SurfaceParabolic.new.toSurface : Surface ℚ).reported := by
  refine ⟨rfl, rfl, rfl, ?_⟩
  simp [Surface.reported, Surface.get_curvature_1, Surface.get_curvature_2,
    SurfaceParabolic.get_curvature_1, SurfaceParabolic.get_curvature_2,
    SurfaceParabolic.toSurface, SurfaceParabolic.new]

/-- Claim C12, amended. A surface changes only through its setters: every operation of the
public interface that is not a setter leaves the object, and so the parameters it reports,
unchanged; a `SurfaceFlat`, which has no setter, is never changed; and the setters
`set_curvature`, `set_radius` and `set_half_height` set the parameters they name. -/
theorem surface_changes_only_by_setters (op : SurfaceOp K) (s s1 : Surface K)
    (h : Surface.apply op s = some s1) :
    (op.isSetter = false → s1 = s ∧ s1.reported = s.reported) ∧
    (s = Surface.SurfaceFlat → s1 = s) ∧
    (∀ c1 c2, op = SurfaceOp.set_curvature c1 c2 →
      s1.get_curvature_1 = c1 ∧ s1.get_curvature_2 = c2) ∧
    (∀ r, op = SurfaceOp.set_radius r → ∃ hh, s1 = Surface.SurfaceCylinder r hh) ∧
    (∀ hh, op = SurfaceOp.set_half_height hh → ∃ r, s1 = Surface.SurfaceCylinder r hh) := by
  cases op <;> cases s <;> simp only [Surface.apply, Option.some.injEq, reduceCtorEq] at h <;>
    subst h <;>
    simp [SurfaceOp.isSetter, Surface.get_curvature_1, Surface.get_curvature_2,
      SurfaceParabolic.get_curvature_1, SurfaceParabolic.get_curvature_2,
      SurfaceParabolic.set_curvature, SurfaceParabolic.toSurface, SurfaceCylinder.set_radius,
      SurfaceCylinder.set_half_height, SurfaceCylinder.toSurface]

theorem surface_changes_only_by_setters_witness :
    Surface.apply SurfaceOp.get_radius (Surface.SurfaceCylinder 2 3 : Surface ℚ)
      = some (Surface.SurfaceCylinder 2 3) ∧
    (SurfaceOp.get_radius : SurfaceOp ℚ).isSetter = false ∧
    (Surface.SurfaceCylinder 2 3 : Surface ℚ).reported
      = (Surface.SurfaceCylinder 2 3 : Surface ℚ).reported :=
  ⟨rfl, rfl,
    ((surface_changes_only_by_setters SurfaceOp.get_radius (Surface.SurfaceCylinder 2 3 : Surface ℚ)
      (Surface.SurfaceCylinder 2 3) rfl).1 rfl).2⟩

/-- Claim C13. For every `SurfaceFlat` and every `SurfaceCylinder`, whatever radius and
half-height have been set, `get_curvature_1()` and `get_curvature_2()` return 0, on the
object and through a pointer to the base class; a surface that reports a non-zero curvature
is parabolic. -/
theorem curvature_zero_unless_parabolic (f : SurfaceFlat) (c : SurfaceCylinder K) (r h : K) :
    ((f.get_curvature_1 : K) = 0 ∧ (f.get_curvature_2 : K) = 0) ∧
    ((f.toSurface : Surface K).get_curvature_1 = 0 ∧
      (f.toSurface : Surface K).get_curvature_2 = 0) ∧
    (c.get_curvature_1 = 0 ∧ c.get_curvature_2 = 0) ∧
    ((c.set_radius r).get_curvature_1 = 0 ∧ (c.set_radius r).get_curvature_2 = 0) ∧
    ((c.set_half_height h).get_curvature_1 = 0 ∧ (c.set_half_height h).get_curvature_2 = 0) ∧
    (((c.set_radius r).set_half_height h).toSurface.get_curvature_1 = 0 ∧
      ((c.set_radius r).set_half_height h).toSurface.get_curvature_2 = 0) ∧
    (∀ s : Surface K, s.get_curvature_1 ≠ 0 ∨ s.get_curvature_2 ≠ 0 →
      s.get_surface_type = SurfaceType.PARABOLIC) := by
  refine ⟨⟨rfl, rfl⟩, ⟨rfl, rfl⟩, ⟨rfl, rfl⟩, ⟨rfl, rfl⟩, ⟨rfl, rfl⟩, ⟨rfl, rfl⟩, ?_⟩
  intro s hs
  cases s with
  | SurfaceParabolic c1 c2 => rfl
  | SurfaceFlat =>
    simp [Surface.get_curvature_1, Surface.get_curvature_2, SurfaceFlat.get_curvature_1,
      SurfaceFlat.get_curvature_2] at hs
  | SurfaceCylinder a b =>
    simp [Surface.get_curvature_1, Surface.get_curvature_2, SurfaceCylinder.get_curvature_1,
      SurfaceCylinder.get_curvature_2] at hs

theorem curvature_zero_unless_parabolic_witness :
    (Surface.SurfaceParabolic (5 / 100) 0 : Surface ℚ).get_curvature_1 ≠ 0 ∧
    (Surface.SurfaceParabolic (5 / 100) 0 : Surface ℚ).get_surface_type
      = SurfaceType.PARABOLIC :=
  have h : (Surface.SurfaceParabolic (5 / 100) 0 : Surface ℚ).get_curvature_1 ≠ 0 := by
    simp [Surface.get_curvature_1, SurfaceParabolic.get_curvature_1]
  ⟨h, (curvature_zero_unless_parabolic SurfaceFlat.mk (SurfaceCylinder.new : SurfaceCylinder ℚ)
    2 3).2.2.2.2.2.2 _ (Or.inl h)⟩

/-- Claim C14. For every `c1` and `c2`, `SurfaceParabolic(c1, c2)` and any `SurfaceParabolic`
after `set_curvature(c1, c2)` report `get_curvature_1() = c1` and `get_curvature_2() = c2`,
on the object and through a pointer to the base class, whatever the other coefficient is; a
default-constructed `SurfaceParabolic` reports 0 and 0. -/
theorem parabolic_curvature_roundtrip (s : SurfaceParabolic K) (c1 c2 : K) :
    ((SurfaceParabolic.mk c1 c2).get_curvature_1 = c1 ∧
      (SurfaceParabolic.mk c1 c2).get_curvature_2 = c2) ∧
    ((s.set_curvature c1 c2).get_curvature_1 = c1 ∧
      (s.set_curvature c1 c2).get_curvature_2 = c2) ∧
    ((s.set_curvature c1 c2).toSurface.get_curvature_1 = c1 ∧
      (s.set_curvature c1 c2).toSurface.get_curvature_2 = c2) ∧
    ((SurfaceParabolic.new : SurfaceParabolic K).get_curvature_1 = 0 ∧
      (SurfaceParabolic.new : SurfaceParabolic K).get_curvature_2 = 0) :=
  ⟨⟨rfl, rfl⟩, ⟨rfl, rfl⟩, ⟨rfl, rfl⟩, ⟨rfl, rfl⟩⟩

/-- Claim C15. For every `SurfaceCylinder` and every `r` and `h`: after `set_radius(r)`,
`get_radius() = r` and `get_half_height()` is unchanged; after `set_half_height(h)`,
`get_half_height() = h` and `get_radius()` is unchanged; a default-constructed cylinder has
radius 1 and half-height 1. -/
theorem cylinder_setters (s : SurfaceCylinder K) (r h : K) :
    ((s.set_radius r).get_radius = r ∧ (s.set_radius r).get_half_height = s.get_half_height) ∧
    ((s.set_half_height h).get_half_height = h ∧
      (s.set_half_height h).get_radius = s.get_radius) ∧
    ((SurfaceCylinder.new : SurfaceCylinder K).get_radius = 1 ∧
      (SurfaceCylinder.new : SurfaceCylinder K).get_half_height = 1) :=
  ⟨⟨rfl, rfl⟩, ⟨rfl, rfl⟩, ⟨rfl, rfl⟩⟩

/-- Claim C16. Every surface reports the tag of its own variant: `get_surface_type()` is `FLAT`
for `SurfaceFlat`, `PARABOLIC` for `SurfaceParabolic` and `CYLINDER` for `SurfaceCylinder`, on
the object and through a pointer to the base class; the three tags are pairwise distinct; and
no setter, indeed no operation of the public interface, changes the tag a surface reports. -/
theorem surface_type_tags {K : Type} (f : SurfaceFlat) (p : SurfaceParabolic K)
    (c : SurfaceCylinder K) :
    (f.get_surface_type = SurfaceType.FLAT ∧ p.get_surface_type = SurfaceType.PARABOLIC ∧
      c.get_surface_type = SurfaceType.CYLINDER) ∧
    ((f.toSurface : Surface K).get_surface_type = SurfaceType.FLAT ∧
      p.toSurface.get_surface_type = SurfaceType.PARABOLIC ∧
      c.toSurface.get_surface_type = SurfaceType.CYLINDER) ∧
    (SurfaceType.FLAT ≠ SurfaceType.PARABOLIC ∧ SurfaceType.FLAT ≠ SurfaceType.CYLINDER ∧
      SurfaceType.PARABOLIC ≠ SurfaceType.CYLINDER) ∧
    (∀ c1 c2, (p.set_curvature c1 c2).get_surface_type = p.get_surface_type) ∧
    (∀ r, (c.set_radius r).get_surface_type = c.get_surface_type) ∧
    (∀ h, (c.set_half_height h).get_surface_type = c.get_surface_type) ∧
    (∀ (op : SurfaceOp K) (s s1 : Surface K), Surface.apply op s = some s1 →
      s1.get_surface_type = s.get_surface_type) := by
  refine ⟨⟨rfl, rfl, rfl⟩, ⟨rfl, rfl, rfl⟩, ⟨by decide, by decide, by decide⟩,
    fun _ _ => rfl, fun _ => rfl, fun _ => rfl, ?_⟩
  intro op s s1 h
  cases op <;> cases s <;> simp only [Surface.apply, Option.some.injEq, reduceCtorEq] at h <;>
    subst h <;> rfl

theorem surface_type_tags_witness :
    Surface.apply (SurfaceOp.set_radius 7) (SurfaceCylinder.new.toSurface : Surface ℚ)
      = some (Surface.SurfaceCylinder 7 1) ∧
    (Surface.SurfaceCylinder 7 1 : Surface ℚ).get_surface_type
      = (SurfaceCylinder.new.toSurface : Surface ℚ).get_surface_type :=
  ⟨rfl, (surface_type_tags SurfaceFlat.mk (SurfaceParabolic.new : SurfaceParabolic ℚ)
    SurfaceCylinder.new).2.2.2.2.2.2 (SurfaceOp.set_radius 7) SurfaceCylinder.new.toSurface
    (Surface.SurfaceCylinder 7 1) rfl⟩

/-- Claim C17. For every `CspElement` and every value `v`, each inline setter followed by its
getter returns `v` unchanged: reflectivity, transmissivity, slope error, specularity error,
the refraction flag and the receiver flag; the setters take every value, so none is rejected
or clamped to `[0, 1]`. -/
theorem inline_setter_getter (e : CspElement K) (v : K) (b : Bool) :
    (e.set_reflectivity v).get_reflectivity = v ∧
    (e.set_transmissivity v).get_transmissivity = v ∧
    (e.set_slope_error v).get_slope_error = v ∧
    (e.set_specularity_error v).get_specularity_error = v ∧
    (e.use_refraction_set b).use_refraction = b ∧
    (e.set_receiver b).is_receiver = b ∧
    (e.set_reflectivity 2).get_reflectivity = 2 ∧
    (e.set_transmissivity (-1)).get_transmissivity = -1 :=
  ⟨rfl, rfl, rfl, rfl, rfl, rfl, rfl, rfl⟩

end SurfaceTheorems

section CsvWriterTheorems

variable {K : Type} [LinearOrderedField K]

/-- Every line that the loop writes carries a number between the current `ray_idx` and
`ray_idx` plus the number of remaining entries. -/
theorem writeVectorToCSV_loop_number (data : List (float4 K)) (ray_idx idx : Int) :
    ∀ r ∈ writeVectorToCSV_loop ray_idx idx data,
      ray_idx ≤ r.number ∧ r.number ≤ ray_idx + data.length := by
  induction data generalizing ray_idx idx with
  | nil => intro r hr; simp [writeVectorToCSV_loop] at hr
  | cons element rest ih =>
    intro r hr
    unfold writeVectorToCSV_loop at hr
    split_ifs at hr with hc
    · rcases List.mem_cons.1 hr with h | h
      · subst h
        simp only [CsvRow.write, List.length_cons, Nat.cast_add, Nat.cast_one]
        constructor <;> omega
      · have := ih ray_idx (idx + 1) r h
        simp only [List.length_cons, Nat.cast_add, Nat.cast_one]
        constructor <;> omega
    · have := ih (ray_idx + 1) 0 r hr
      simp only [List.length_cons, Nat.cast_add, Nat.cast_one]
      constructor <;> omega

/-- The entries of the lines that the loop writes are a subsequence of the buffer. -/
theorem writeVectorToCSV_loop_sublist (data : List (float4 K)) (ray_idx idx : Int) :
    ((writeVectorToCSV_loop ray_idx idx data).map CsvRow.entry).Sublist data := by
  induction data generalizing ray_idx idx with
  | nil => simp [writeVectorToCSV_loop]
  | cons element rest ih =>
    unfold writeVectorToCSV_loop
    split_ifs with hc
    · simp only [List.map_cons]
      have he : (CsvRow.write ray_idx element).entry = element := rfl
      rw [he]
      exact (ih ray_idx (idx + 1)).cons₂ element
    · exact (ih (ray_idx + 1) 0).cons element

/-- The numbers of the lines that the loop writes never decrease. -/
theorem writeVectorToCSV_loop_sorted (data : List (float4 K)) (ray_idx idx : Int) :
    ((writeVectorToCSV_loop ray_idx idx data).map CsvRow.number).Pairwise (· ≤ ·) := by
  induction data generalizing ray_idx idx with
  | nil => simp [writeVectorToCSV_loop]
  | cons element rest ih =>
    unfold writeVectorToCSV_loop
    split_ifs with hc
    · simp only [List.map_cons, List.pairwise_cons]
      refine ⟨?_, ih ray_idx (idx + 1)⟩
      intro n hn
      obtain ⟨r, hr, rfl⟩ := List.mem_map.1 hn
      exact (writeVectorToCSV_loop_number rest ray_idx (idx + 1) r hr).1
    · exact ih (ray_idx + 1) 0

/-- Claim C19. For every hit buffer, the rows that `writeVectorToCSV` writes after the header
appear in the same order as their entries in the buffer (the entries of the rows are a
subsequence of the buffer), and the number column never decreases from one row to the next,
nor to any later row; every number lies between 1 and 1 plus the size of the buffer. -/
theorem writeVectorToCSV_order (data : List (float4 K)) :
    writeVectorToCSV true data
      = some ("number,stage,loc_x,loc_y,loc_z", writeVectorToCSV_rows data) ∧
    ((writeVectorToCSV_rows data).map CsvRow.entry).Sublist data ∧
    ((writeVectorToCSV_rows data).map CsvRow.number).Pairwise (· ≤ ·) ∧
    ((writeVectorToCSV_rows data).map CsvRow.number).Chain' (· ≤ ·) ∧
    (∀ r ∈ writeVectorToCSV_rows data, 1 ≤ r.number ∧ r.number ≤ 1 + data.length) :=
  ⟨rfl, writeVectorToCSV_loop_sublist data 1 0, writeVectorToCSV_loop_sorted data 1 0,
    (writeVectorToCSV_loop_sorted data 1 0).chain',
    writeVectorToCSV_loop_number data 1 0⟩

/-- Claim C18, the code at a failing input. In a buffer of two rays with `max_trace` entries
each, where each ray recorded one hit followed by zero entries, the entry at position 5 is
the first of the second ray, whose 1-based index is `1 + 5 / max_trace = 2`; the row that
`writeVectorToCSV` writes for it carries the number 5, because every zero entry of the first
ray advanced `ray_idx`. -/
theorem writeVectorToCSV_number_mismatch :
    ([hit_entry 1, zero_entry, zero_entry, zero_entry, zero_entry,
      hit_entry 2, zero_entry, zero_entry, zero_entry, zero_entry] : List (float4 ℚ)).length
      = 2 * 5 ∧
    ([hit_entry 1, zero_entry, zero_entry, zero_entry, zero_entry,
      hit_entry 2, zero_entry, zero_entry, zero_entry, zero_entry] : List (float4 ℚ)).get? 5
      = some (hit_entry 2) ∧
    writeVectorToCSV_rows ([hit_entry 1, zero_entry, zero_entry, zero_entry, zero_entry,
      hit_entry 2, zero_entry, zero_entry, zero_entry, zero_entry] : List (float4 ℚ))
      = [CsvRow.write 1 (hit_entry 1), CsvRow.write 5 (hit_entry 2)] ∧
    (CsvRow.write 5 (hit_entry (2 : ℚ))).number ≠ 1 + 5 / max_trace := by
  refine ⟨rfl, rfl, ?_, by decide⟩
  simp [writeVectorToCSV_rows, writeVectorToCSV_loop, allZeros, FloatVal.eqZero, hit_entry,
    zero_entry, max_trace]

/-- Claim C20, the code at a failing input. In a buffer of two rays with `max_trace` entries
each, where the first ray recorded `max_trace` hits and the second ray one, `allZeros` is
false for the first entry of the second ray, yet `writeVectorToCSV` writes no row for it: it
is the entry at which `idx` exceeds `max_trace`. -/
theorem writeVectorToCSV_omits_entry :
    allZeros (hit_entry 6 : float4 ℚ) = false ∧
    writeVectorToCSV_rows ([hit_entry 1, hit_entry 2, hit_entry 3, hit_entry 4, hit_entry 5,
      hit_entry 6, zero_entry, zero_entry, zero_entry, zero_entry] : List (float4 ℚ))
      = [CsvRow.write 1 (hit_entry 1), CsvRow.write 1 (hit_entry 2),
         CsvRow.write 1 (hit_entry 3), CsvRow.write 1 (hit_entry 4),
         CsvRow.write 1 (hit_entry 5)] ∧
    (hit_entry 6 : float4 ℚ) ∉ (writeVectorToCSV_rows ([hit_entry 1, hit_entry 2, hit_entry 3,
      hit_entry 4, hit_entry 5, hit_entry 6, zero_entry, zero_entry, zero_entry,
      zero_entry] : List (float4 ℚ))).map CsvRow.entry := by
  have h : writeVectorToCSV_rows ([hit_entry 1, hit_entry 2, hit_entry 3, hit_entry 4,
      hit_entry 5, hit_entry 6, zero_entry, zero_entry, zero_entry, zero_entry] :
        List (float4 ℚ))
      = [CsvRow.write 1 (hit_entry 1), CsvRow.write 1 (hit_entry 2),
         CsvRow.write 1 (hit_entry 3), CsvRow.write 1 (hit_entry 4),
         CsvRow.write 1 (hit_entry 5)] := by
    simp [writeVectorToCSV_rows, writeVectorToCSV_loop, allZeros, FloatVal.eqZero, hit_entry,
      zero_entry, max_trace]
  refine ⟨?_, h, ?_⟩
  · simp [allZeros, FloatVal.eqZero, hit_entry]
  · rw [h]
    simp [CsvRow.entry, CsvRow.write, hit_entry]

end CsvWriterTheorems

section CleanUp

/-- Release calls on live, pairwise different resources all succeed, and afterwards exactly the
resources they name are no longer live. -/
theorem Driver.calls_ok (cs : List ReleaseCall) (d : Driver)
    (hlive : ∀ c ∈ cs, c.target ∈ d.live) (hnd : (cs.map ReleaseCall.target).Nodup) :
    ∃ d1, d.calls cs = Except.ok d1 ∧
      ∀ x, x ∈ d1.live ↔ x ∈ d.live ∧ x ∉ cs.map ReleaseCall.target := by
  induction cs generalizing d with
  | nil => exact ⟨d, rfl, fun x => by simp⟩
  | cons c rest ih =>
    have hc : c.target ∈ d.live := hlive c (List.mem_cons_self _ _)
    rw [List.map_cons, List.nodup_cons] at hnd
    obtain ⟨hnot, hnd1⟩ := hnd
    have hrest : ∀ c1 ∈ rest,
        c1.target ∈ (⟨d.live.filter (fun r => r ≠ c.target), d.next⟩ : Driver).live := by
      intro c1 hc1
      simp only [List.mem_filter, decide_eq_true_eq]
      refine ⟨hlive c1 (List.mem_cons_of_mem _ hc1), ?_⟩
      intro heq
      exact hnot (heq ▸ List.mem_map_of_mem _ hc1)
    obtain ⟨d1, hd1, hmem⟩ := ih _ hrest hnd1
    refine ⟨d1, ?_, ?_⟩
    · simp only [Driver.calls, Driver.call, hc, if_true]
      exact hd1
    · intro x
      rw [hmem x]
      simp only [List.mem_filter, decide_eq_true_eq, List.map_cons, List.mem_cons, not_or]
      tauto

/-- Claim C11, counterexample. Clean-up by `cleanupState` is not idempotent: on the state that
the set-up of `main` leaves, the first `cleanupState` succeeds, and a second `cleanupState` on
the same state does not: its first call, `optixPipelineDestroy(state.pipeline)`, names a
pipeline that is no longer live. -/
theorem cleanupState_not_idempotent :
    ∃ d state, main_setup false = Except.ok (d, state) ∧ state.pipeline = 13 ∧
      (13, ResourceKind.Pipeline) ∈ d.live ∧
      cleanupState d state
        = Except.ok ⟨[(18, ResourceKind.Stream), (8, ResourceKind.Module)], 20⟩ ∧
      cleanupState ⟨[(18, ResourceKind.Stream), (8, ResourceKind.Module)], 20⟩ state
        = Except.error DriverError.InvalidValue :=
  ⟨_, _, rfl, rfl, by decide, rfl, rfl⟩

/-- Claim C11, amended. The clean-up of the scene controller, `clean_up()`, is idempotent as
specified; `cleanupState` releases the resources once and is not idempotent: on every state
that is set up for it, the first call succeeds, leaves none of the resources it names live
and leaves the handles stored in the state as they are, and a second call on that state
fails at its first release and releases nothing. -/
theorem cleanupState_once {K : Type} (d : Driver) (state : SoltraceState)
    (h : Releasable d state) :
    (∀ sys : SolTraceSystem K, sys.clean_up.clean_up = sys.clean_up) ∧
    ∃ d1, cleanupState d state = Except.ok d1 ∧
      (∀ c ∈ cleanupState_calls state, c.target ∉ d1.live) ∧
      cleanupState d1 state = Except.error DriverError.InvalidValue := by
  refine ⟨fun sys => rfl, ?_⟩
  obtain ⟨d1, hd1, hmem⟩ := Driver.calls_ok (cleanupState_calls state) d h.1 h.2
  refine ⟨d1, hd1, ?_, ?_⟩
  · intro c hc hin
    exact ((hmem _).1 hin).2 (List.mem_map_of_mem _ hc)
  · have hp : (state.pipeline, ResourceKind.Pipeline) ∉ d1.live := by
      intro hin
      exact ((hmem _).1 hin).2 (by simp [cleanupState_calls, ReleaseCall.target])
    simp only [cleanupState, cleanupState_calls, Driver.calls, Driver.call,
      ReleaseCall.target, hp, if_false, reduceCtorEq]

theorem cleanupState_once_witness :
    ∃ d state, main_setup true = Except.ok (d, state) ∧ Releasable d state ∧
      ∃ d1, cleanupState d state = Except.ok d1 ∧
        (∀ c ∈ cleanupState_calls state, c.target ∉ d1.live) ∧
        cleanupState d1 state = Except.error DriverError.InvalidValue :=
  ⟨_, _, rfl, by decide, (cleanupState_once (K := ℚ) _ _ (by decide)).2⟩

end CleanUp

section CsvWriterFilter

variable {K : Type} [LinearOrderedField K]

/-- Claim C22, the code at a failing input. `allZeros` does not look at the component `x`: for
the entry (1, 0, 0, 0), whose component `x` is not zero, it returns true; it returns true
exactly when `y`, `z` and `w` are zero, so in particular for the entry with four zeros. -/
theorem allZeros_ignores_x :
    allZeros (⟨FloatVal.num 1, FloatVal.num 0, FloatVal.num 0, FloatVal.num 0⟩ : float4 ℚ)
      = true ∧
    (⟨FloatVal.num 1, FloatVal.num 0, FloatVal.num 0, FloatVal.num 0⟩ : float4 ℚ).x.eqZero
      = false ∧
    allZeros (zero_entry : float4 ℚ) = true ∧
    (∀ e : float4 ℚ, allZeros e = true ↔
      e.y.eqZero = true ∧ e.z.eqZero = true ∧ e.w.eqZero = true) := by
  refine ⟨by decide, by decide, by decide, ?_⟩
  intro e
  simp only [allZeros, Bool.and_eq_true, and_assoc]

/-- No line that the loop writes comes from an entry for which `allZeros` is true. -/
theorem writeVectorToCSV_loop_nonzero (data : List (float4 K)) (ray_idx idx : Int) :
    ∀ r ∈ writeVectorToCSV_loop ray_idx idx data, allZeros r.entry = false := by
  induction data generalizing ray_idx idx with
  | nil => intro r hr; simp [writeVectorToCSV_loop] at hr
  | cons element rest ih =>
    intro r hr
    unfold writeVectorToCSV_loop at hr
    split_ifs at hr with hc
    · rcases List.mem_cons.1 hr with h | h
      · subst h
        exact hc.2
      · exact ih ray_idx (idx + 1) r h
    · exact ih (ray_idx + 1) 0 r hr

/-- Claim C23. For every hit buffer, `writeVectorToCSV` never writes a row for an entry for
which `allZeros` is true, and it writes at most one row per buffer entry (the entries of the
rows are a subsequence of the buffer), so the number of rows is at most the number of
entries. -/
theorem writeVectorToCSV_rows_bound (data : List (float4 K)) :
    (∀ r ∈ writeVectorToCSV_rows data, allZeros r.entry = false) ∧
    ((writeVectorToCSV_rows data).map CsvRow.entry).Sublist data ∧
    (writeVectorToCSV_rows data).length ≤ data.length := by
  refine ⟨writeVectorToCSV_loop_nonzero data 1 0, writeVectorToCSV_loop_sublist data 1 0, ?_⟩
  have h := (writeVectorToCSV_loop_sublist data 1 0).length_le
  rw [List.length_map] at h
  exact h

end CsvWriterFilter

section InlineSetterFrame

variable {K : Type}

/-- Claim C26. Each inline setter of a `CspElement` changes only its own field: the element
after `set_reflectivity`, `set_transmissivity`, `set_slope_error`, `set_specularity_error`,
`use_refraction(bool)` or `set_receiver` is the element before with that one member replaced,
so origin, aim point, zrot, Euler angles, both box bounds, surface, aperture and every other
optical field and flag are unchanged. -/
theorem inline_setter_frame (e : CspElement K) (v : K) (b : Bool) :
    (e.set_reflectivity v = { e with m_reflectivity := v } ∧
      e.set_transmissivity v = { e with m_transmissivity := v } ∧
      e.set_slope_error v = { e with m_slope_error := v } ∧
      e.set_specularity_error v = { e with m_specularity_error := v } ∧
      e.use_refraction_set b = { e with m_use_refraction := b } ∧
      e.set_receiver b = { e with m_receiver := b }) ∧
    (∀ e1 ∈ [e.set_reflectivity v, e.set_transmissivity v, e.set_slope_error v,
        e.set_specularity_error v, e.use_refraction_set b, e.set_receiver b],
      e1.m_origin = e.m_origin ∧ e1.m_aim_point = e.m_aim_point ∧ e1.m_zrot = e.m_zrot ∧
      e1.m_euler_angles = e.m_euler_angles ∧
      e1.m_upper_box_bound = e.m_upper_box_bound ∧
      e1.m_lower_box_bound = e.m_lower_box_bound ∧
      e1.m_surface = e.m_surface ∧ e1.m_aperture = e.m_aperture ∧
      e1.m_rotation = e.m_rotation ∧ e1.m_box_valid = e.m_box_valid) ∧
    (∀ e1 ∈ [e.set_transmissivity v, e.set_slope_error v, e.set_specularity_error v,
        e.use_refraction_set b, e.set_receiver b], e1.m_reflectivity = e.m_reflectivity) ∧
    (∀ e1 ∈ [e.set_reflectivity v, e.set_slope_error v, e.set_specularity_error v,
        e.use_refraction_set b, e.set_receiver b], e1.m_transmissivity = e.m_transmissivity) ∧
    (∀ e1 ∈ [e.set_reflectivity v, e.set_transmissivity v, e.set_specularity_error v,
        e.use_refraction_set b, e.set_receiver b], e1.m_slope_error = e.m_slope_error) ∧
    (∀ e1 ∈ [e.set_reflectivity v, e.set_transmissivity v, e.set_slope_error v,
        e.use_refraction_set b, e.set_receiver b],
      e1.m_specularity_error = e.m_specularity_error) ∧
    (∀ e1 ∈ [e.set_reflectivity v, e.set_transmissivity v, e.set_slope_error v,
        e.set_specularity_error v, e.set_receiver b],
      e1.m_use_refraction = e.m_use_refraction) ∧
    (∀ e1 ∈ [e.set_reflectivity v, e.set_transmissivity v, e.set_slope_error v,
        e.set_specularity_error v, e.use_refraction_set b], e1.m_receiver = e.m_receiver) := by
  refine ⟨⟨rfl, rfl, rfl, rfl, rfl, rfl⟩, ?_, ?_, ?_, ?_, ?_, ?_, ?_⟩ <;>
    simp only [List.mem_cons, List.mem_singleton, List.not_mem_nil, or_false,
      forall_eq_or_imp, forall_eq, CspElement.set_reflectivity, CspElement.set_transmissivity,
      CspElement.set_slope_error, CspElement.set_specularity_error,
      CspElement.use_refraction_set, CspElement.set_receiver, and_self]

end InlineSetterFrame

section RescaleInvolution

variable {K : Type} [LinearOrderedField K] [FloatFormat K]

/-- In exact arithmetic, the rescaled edge of the rescaled edge of a non-zero vector is the
vector. -/
theorem rescale_exact_rescale_exact {K : Type} [LinearOrderedField K] (a b c : K)
    (h : make_float3 a b c ≠ make_float3 0 0 0) :
    rescale_exact (a / (a * a + b * b + c * c)) (b / (a * a + b * b + c * c))
      (c / (a * a + b * b + c * c)) = make_float3 a b c := by
  have hd := sumsq_ne_zero a b c h
  have hd2 : a / (a * a + b * b + c * c) * (a / (a * a + b * b + c * c))
      + b / (a * a + b * b + c * c) * (b / (a * a + b * b + c * c))
      + c / (a * a + b * b + c * c) * (c / (a * a + b * b + c * c))
      = 1 / (a * a + b * b + c * c) := by
    field_simp
  unfold rescale_exact
  rw [hd2]
  simp only [make_float3, float3.mk.injEq, FloatVal.num.injEq]
  refine ⟨?_, ?_, ?_⟩ <;> field_simp

/-- Rescaling a non-zero vector twice gives the vector back where the two rescalings are free
of rounding error. -/
theorem rescale_rescale (a b c : K) (h : make_float3 a b c ≠ make_float3 0 0 0)
    (hx : rescaled_exactly a b c) :
    rescale (rescale (make_float3 a b c)) = make_float3 a b c := by
  rw [hx.1, hx.2]
  exact rescale_exact_rescale_exact a b c h

/-- The examples of rounding do not depend on how `float3 / float` divides.  Where the
quotient is computed through the reciprocal, in binary32: the rescaled edge of
`(2^-80, 0, 0)` is `(+inf, NaN, NaN)` again; for `v1 = (5, 0, 0)` and the anchor x `0.5` the
corner `anchor + tv1` has the x `11744051 / 2^24 = 0.69999999` again, below `0.7`; and
rescaling `(3, 0, 0)` twice gives `(12582911 / 2^22, 0, 0) = (2.9999998, 0, 0)` again. -/
theorem divs_reciprocal_examples :
    (make_float3 (pow2 (-80)) 0 0).divs_reciprocal
        (dot (make_float3 (pow2 (-80)) 0 0) (make_float3 (pow2 (-80)) 0 0))
      = ⟨FloatVal.pinf, FloatVal.nan, FloatVal.nan⟩ ∧
    make_float3 (1 / 2 : ℚ) 0 0 + (make_float3 (5 : ℚ) 0 0).divs_reciprocal
        (dot (make_float3 (5 : ℚ) 0 0) (make_float3 5 0 0))
      = make_float3 (11744051 / 16777216) 0 0 ∧
    ((make_float3 (3 : ℚ) 0 0).divs_reciprocal
        (dot (make_float3 (3 : ℚ) 0 0) (make_float3 3 0 0))).divs_reciprocal
      (dot ((make_float3 (3 : ℚ) 0 0).divs_reciprocal
          (dot (make_float3 (3 : ℚ) 0 0) (make_float3 3 0 0)))
        ((make_float3 (3 : ℚ) 0 0).divs_reciprocal
          (dot (make_float3 (3 : ℚ) 0 0) (make_float3 3 0 0))))
      = make_float3 (12582911 / 4194304) 0 0 := by
  decide!

end RescaleInvolution

section ResourceRelease

/-- Claim C24, the code at a failing input. On the state that the set-up of `main` leaves,
with or without compaction of the acceleration structure, `cleanupState` succeeds, and
afterwards two resources that the set-up created and stored in the state are still live: the
sun module `state.sun_module` of `createModules` and the stream `state.stream` of
`initLaunchParams`; every other resource of the set-up is released. -/
theorem cleanupState_leaves_resources :
    (∃ d state, main_setup false = Except.ok (d, state) ∧
      state.sun_module = 8 ∧ state.stream = 18 ∧
      (8, ResourceKind.Module) ∈ d.live ∧ (18, ResourceKind.Stream) ∈ d.live ∧
      cleanupState d state
        = Except.ok ⟨[(18, ResourceKind.Stream), (8, ResourceKind.Module)], 20⟩) ∧
    (∃ d state, main_setup true = Except.ok (d, state) ∧
      state.sun_module = 9 ∧ state.stream = 19 ∧
      (9, ResourceKind.Module) ∈ d.live ∧ (19, ResourceKind.Stream) ∈ d.live ∧
      cleanupState d state
        = Except.ok ⟨[(19, ResourceKind.Stream), (9, ResourceKind.Module)], 21⟩) :=
  ⟨⟨_, _, rfl, rfl, rfl, by decide, by decide, rfl⟩,
    ⟨_, _, rfl, rfl, rfl, by decide, by decide, rfl⟩⟩

end ResourceRelease

section RecordOrder

variable {K : Type} [LinearOrderedField K] [FloatFormat K]

/-- The records that `createSBT` fills, for `RAY_TYPE_COUNT = m + 1`: the four records of the
objects in their order, followed by the records that are not set. -/
theorem createSBT_hitgroup_records_eq {K : Type} [LinearOrderedField K] (m : Nat)
    (heliostat1 heliostat2 heliostat3 receiver : Parallelogram K) :
    createSBT_hitgroup_records (m + 1) heliostat1 heliostat2 heliostat3 receiver
      = some ⟨HitProgram.radiance_mirror_prog_group, heliostat1, ⟨95 / 100, 0, 0, 0⟩⟩ ::
        some ⟨HitProgram.radiance_mirror_prog_group, heliostat2, ⟨95 / 100, 0, 0, 0⟩⟩ ::
        some ⟨HitProgram.radiance_mirror_prog_group, heliostat3, ⟨95 / 100, 0, 0, 0⟩⟩ ::
        some ⟨HitProgram.radiance_receiver_prog_group, receiver, ⟨95 / 100, 0, 0, 0⟩⟩ ::
        List.replicate (m * OBJ_COUNT) none := by
  have hrep : List.replicate ((m + 1) * OBJ_COUNT) (none : Option (HitGroupRecord K))
      = none :: none :: none :: none :: List.replicate (m * OBJ_COUNT) none := by
    have : (m + 1) * OBJ_COUNT = m * OBJ_COUNT + 4 := by simp [OBJ_COUNT]; ring
    rw [this]
    rfl
  simp only [createSBT_hitgroup_records, hrep]
  rfl

/-- Claim C25. Engine-facing records keep the object order: for every index `i < OBJ_COUNT`,
the `i`-th AABB of `createGeometry` is the bound of the `i`-th object of (heliostat1,
heliostat2, heliostat3, receiver), and the hit-group record at `sbt_index[i]` is set from the
same object; the header of that record is packed from the receiver program group exactly when
the object is the receiver (`i = 3`), and from the mirror program group otherwise. -/
theorem records_keep_object_order (RAY_TYPE_COUNT : Nat) (hn : 1 ≤ RAY_TYPE_COUNT)
    (heliostat1 heliostat2 heliostat3 receiver : Parallelogram K) (i : Nat)
    (hi : i < OBJ_COUNT) :
    ∃ obj j rec, [heliostat1, heliostat2, heliostat3, receiver].get? i = some obj ∧
      (createGeometry_aabb heliostat1 heliostat2 heliostat3 receiver).get? i
        = some (parallelogram_bound obj.v1 obj.v2 obj.anchor) ∧
      sbt_index.get? i = some j ∧
      (createSBT_hitgroup_records RAY_TYPE_COUNT heliostat1 heliostat2 heliostat3 receiver).get? j
        = some (some rec) ∧
      rec.geometry_data = obj ∧
      (rec.header = HitProgram.radiance_receiver_prog_group ↔ i = 3) ∧
      (rec.header = HitProgram.radiance_mirror_prog_group ↔ i < 3) := by
  obtain ⟨m, rfl⟩ : ∃ m, RAY_TYPE_COUNT = m + 1 := ⟨RAY_TYPE_COUNT - 1, by omega⟩
  have hrec := createSBT_hitgroup_records_eq m heliostat1 heliostat2 heliostat3 receiver
  simp only [OBJ_COUNT] at hi
  interval_cases i
  · exact ⟨heliostat1, 0, ⟨HitProgram.radiance_mirror_prog_group, heliostat1,
      ⟨95 / 100, 0, 0, 0⟩⟩, rfl, rfl, rfl, by rw [hrec]; rfl, rfl, by simp, by simp⟩
  · exact ⟨heliostat2, 1, ⟨HitProgram.radiance_mirror_prog_group, heliostat2,
      ⟨95 / 100, 0, 0, 0⟩⟩, rfl, rfl, rfl, by rw [hrec]; rfl, rfl, by simp, by simp⟩
  · exact ⟨heliostat3, 2, ⟨HitProgram.radiance_mirror_prog_group, heliostat3,
      ⟨95 / 100, 0, 0, 0⟩⟩, rfl, rfl, rfl, by rw [hrec]; rfl, rfl, by simp, by simp⟩
  · exact ⟨receiver, 3, ⟨HitProgram.radiance_receiver_prog_group, receiver,
      ⟨95 / 100, 0, 0, 0⟩⟩, rfl, rfl, rfl, by rw [hrec]; rfl, rfl, by simp, by simp⟩

theorem records_keep_object_order_witness :
    1 ≤ 1 ∧ 3 < OBJ_COUNT ∧
    ∃ obj j rec,
      ([⟨make_float3 (-1 : ℚ) 0 0, make_float3 0 2 1, make_float3 (1 / 2) 4 0⟩,
        ⟨make_float3 0 1 0, make_float3 2 0 1, make_float3 4 (-1 / 2) 0⟩,
        ⟨make_float3 0 (-1) 0, make_float3 (-2) 0 1, make_float3 (-4) (1 / 2) 0⟩,
        ⟨make_float3 2 0 0, make_float3 0 2 1, make_float3 (-1) (-1) 9⟩] :
          List (Parallelogram ℚ)).get? 3 = some obj ∧
      (createGeometry_aabb
        (⟨make_float3 (-1 : ℚ) 0 0, make_float3 0 2 1, make_float3 (1 / 2) 4 0⟩ : Parallelogram ℚ)
        ⟨make_float3 0 1 0, make_float3 2 0 1, make_float3 4 (-1 / 2) 0⟩
        ⟨make_float3 0 (-1) 0, make_float3 (-2) 0 1, make_float3 (-4) (1 / 2) 0⟩
        ⟨make_float3 2 0 0, make_float3 0 2 1, make_float3 (-1) (-1) 9⟩).get? 3
        = some (parallelogram_bound obj.v1 obj.v2 obj.anchor) ∧
      sbt_index.get? 3 = some j ∧
      (createSBT_hitgroup_records 1
        (⟨make_float3 (-1 : ℚ) 0 0, make_float3 0 2 1, make_float3 (1 / 2) 4 0⟩ : Parallelogram ℚ)
        ⟨make_float3 0 1 0, make_float3 2 0 1, make_float3 4 (-1 / 2) 0⟩
        ⟨make_float3 0 (-1) 0, make_float3 (-2) 0 1, make_float3 (-4) (1 / 2) 0⟩
        ⟨make_float3 2 0 0, make_float3 0 2 1, make_float3 (-1) (-1) 9⟩).get? j
        = some (some rec) ∧
      rec.geometry_data = obj ∧
      (rec.header = HitProgram.radiance_receiver_prog_group ↔ 3 = 3) ∧
      (rec.header = HitProgram.radiance_mirror_prog_group ↔ 3 < 3) :=
  ⟨le_refl 1, by decide,
    records_keep_object_order 1 (le_refl 1)
      (⟨make_float3 (-1 : ℚ) 0 0, make_float3 0 2 1, make_float3 (1 / 2) 4 0⟩ : Parallelogram ℚ)
      ⟨make_float3 0 1 0, make_float3 2 0 1, make_float3 4 (-1 / 2) 0⟩
      ⟨make_float3 0 (-1) 0, make_float3 (-2) 0 1, make_float3 (-4) (1 / 2) 0⟩
      ⟨make_float3 2 0 0, make_float3 0 2 1, make_float3 (-1) (-1) 9⟩ 3 (by decide)⟩

end RecordOrder

section DemoCopy

/-- The object that `make_shared` allocates is a copy at a new address: it holds the value of
`e` at the time of the call, and the objects allocated before are as they were. -/
theorem make_shared_copy {K : Type} (st : DemoStore K) (e : CspElement K) :
    (st.make_shared e).2.heap.get? (st.make_shared e).1 = some e ∧
    (∀ p, p < st.heap.length → (st.make_shared e).2.heap.get? p = st.heap.get? p) ∧
    (st.make_shared e).2.e5 = st.e5 := by
  refine ⟨?_, ?_, rfl⟩
  · simp [DemoStore.make_shared]
  · intro p hp
    simp [DemoStore.make_shared, List.getElem?_append_left hp]

/-- Claim C27. A `CspElement` registered from a copy is independent of the object it was copied
from: in demo_transmissivity the scene holds three elements, at the addresses of `e2`, `e4`
and the copy of `e5`; after `e5.set_receiver(false)` the local `e5` is no receiver, while the
copy that was added still has `is_receiver() = true` (and the origin of `e5`), so two of the
three elements, `e4` and the copy of `e5`, are receiver-flagged. -/
theorem demo_transmissivity_receivers :
    demo_transmissivity_main.m_element_list = [1, 3, 4] ∧
    demo_transmissivity_main.heap.length = 5 ∧
    demo_transmissivity_main.elements.length = 3 ∧
    demo_transmissivity_main.elements.map CspElement.is_receiver = [false, true, true] ∧
    demo_transmissivity_main.elements.map CspElement.m_origin
      = [⟨0, 5, 0⟩, ⟨0, 0, 95 / 10⟩, ⟨0, 1, 75 / 10⟩] ∧
    demo_transmissivity_main.e5.is_receiver = false ∧
    demo_transmissivity_main.e5.m_origin = ⟨0, 1, 75 / 10⟩ ∧
    (demo_transmissivity_main.elements.filter CspElement.is_receiver).length = 2 ∧
    (((SolTraceSystem.new 1000).add_element
        (demo_transmissivity_main.heap.getD 1 CspElement.new)).add_element
        (demo_transmissivity_main.heap.getD 3 CspElement.new)).add_element
        (demo_transmissivity_main.heap.getD 4 CspElement.new)
      = { (SolTraceSystem.new 1000 : SolTraceSystem ℚ) with
          m_element_list := demo_transmissivity_main.elements } := by
  have hm : demo_transmissivity_main.m_element_list = [1, 3, 4] := rfl
  have hl : demo_transmissivity_main.heap.length = 5 := rfl
  have he : demo_transmissivity_main.elements
      = [demo_transmissivity_main.heap.getD 1 CspElement.new,
         demo_transmissivity_main.heap.getD 3 CspElement.new,
         demo_transmissivity_main.heap.getD 4 CspElement.new] := rfl
  refine ⟨hm, hl, ?_, ?_, ?_, rfl, rfl, ?_, ?_⟩
  · rw [he]; rfl
  · rw [he]; rfl
  · rw [he]; rfl
  · rw [he]; rfl
  · rw [he]; rfl

end DemoCopy

section RayNumbers

variable {K : Type} [LinearOrderedField K]

/-- The loop over a run of hits that fits into the group: each hit is written under the current
number, and `idx` advances by the length of the run. -/
theorem writeVectorToCSV_loop_hits (hits tail : List (float4 K)) (ray_idx idx : Int)
    (hh : ∀ e ∈ hits, allZeros e = false) (hfit : idx + hits.length ≤ max_trace) :
    writeVectorToCSV_loop ray_idx idx (hits ++ tail)
      = hits.map (CsvRow.write ray_idx)
        ++ writeVectorToCSV_loop ray_idx (idx + hits.length) tail := by
  induction hits generalizing idx with
  | nil => simp
  | cons e rest ih =>
    have he : allZeros e = false := hh e (List.mem_cons_self _ _)
    simp only [List.length_cons, Nat.cast_add, Nat.cast_one] at hfit
    have hc : idx + 1 ≤ max_trace ∧ allZeros e = false := ⟨by omega, he⟩
    rw [List.cons_append, writeVectorToCSV_loop, if_pos hc,
      ih (idx + 1) (fun x hx => hh x (List.mem_cons_of_mem _ hx)) (by omega)]
    simp only [List.map_cons, List.cons_append, List.length_cons, Nat.cast_add, Nat.cast_one]
    congr 3
    ring

/-- The loop over a run of zero entries: nothing is written, the number advances by the length
of the run, and `idx` is 0 afterwards. -/
theorem writeVectorToCSV_loop_zeros (zs tail : List (float4 K)) (z : float4 K)
    (ray_idx idx : Int) (hz : allZeros z = true) (hzs : ∀ e ∈ zs, allZeros e = true) :
    writeVectorToCSV_loop ray_idx idx (z :: zs ++ tail)
      = writeVectorToCSV_loop (ray_idx + 1 + zs.length) 0 tail := by
  induction zs generalizing ray_idx idx z with
  | nil =>
    simp [writeVectorToCSV_loop, hz]
  | cons z1 rest ih =>
    have h1 : allZeros z1 = true := hzs z1 (List.mem_cons_self _ _)
    have step : writeVectorToCSV_loop ray_idx idx (z :: (z1 :: rest) ++ tail)
        = writeVectorToCSV_loop (ray_idx + 1) 0 (z1 :: rest ++ tail) := by
      simp [writeVectorToCSV_loop, hz]
    rw [step, ih z1 (ray_idx + 1) 0 h1 (fun x hx => hzs x (List.mem_cons_of_mem _ hx))]
    congr 1
    simp only [List.length_cons, Nat.cast_add, Nat.cast_one]
    ring

/-- The loop over a group that is terminated early, entered with `idx = 0`: the hits of the
group are written under the current number, which then advances by the number of zero
entries of the group, at least one, and `idx` is 0 again. -/
theorem writeVectorToCSV_loop_group (g tail : List (float4 K)) (ray_idx : Int)
    (hg : TerminatedEarly g) :
    writeVectorToCSV_loop ray_idx 0 (g ++ tail)
      = (g.filter fun e => !allZeros e).map (CsvRow.write ray_idx)
        ++ writeVectorToCSV_loop (ray_idx + (g.countP allZeros : Nat)) 0 tail ∧
    1 ≤ g.countP allZeros := by
  obtain ⟨hlen, hits, zeros, rfl, hne, hh, hz⟩ := hg
  obtain ⟨z, zs, rfl⟩ := List.exists_cons_of_ne_nil hne
  have hfilter : ((hits ++ z :: zs).filter fun e => !allZeros e) = hits := by
    rw [List.filter_append]
    have h1 : (hits.filter fun e => !allZeros e) = hits :=
      List.filter_eq_self.2 (fun a ha => by simp [hh a ha])
    have h2 : ((z :: zs).filter fun e => !allZeros e) = [] :=
      List.filter_eq_nil_iff.2 (fun a ha => by simp [hz a ha])
    rw [h1, h2, List.append_nil]
  have hcount : (hits ++ z :: zs).countP allZeros = zs.length + 1 := by
    rw [List.countP_append]
    have h1 : hits.countP allZeros = 0 :=
      List.countP_eq_zero.2 (fun a ha => by simp [hh a ha])
    have h2 : (z :: zs).countP allZeros = (z :: zs).length := List.countP_eq_length.2 hz
    rw [h1, h2, List.length_cons, zero_add]
  simp only [List.length_append, List.length_cons, Nat.cast_add, Nat.cast_one,
    max_trace] at hlen
  refine ⟨?_, by omega⟩
  rw [hfilter, hcount, List.append_assoc,
    writeVectorToCSV_loop_hits hits _ ray_idx 0 hh (by simp only [max_trace]; omega),
    writeVectorToCSV_loop_zeros zs tail z ray_idx _ (hz z (List.mem_cons_self _ _))
      (fun x hx => hz x (List.mem_cons_of_mem _ hx))]
  congr 2
  push_cast
  ring

/-- The rows of a buffer of groups that are terminated early are the rows of the rays, ray by
ray. -/
theorem writeVectorToCSV_loop_groups (groups : List (List (float4 K))) (ray_idx : Int)
    (h : ∀ g ∈ groups, TerminatedEarly g) :
    writeVectorToCSV_loop ray_idx 0 groups.flatten = (rows_by_ray ray_idx groups).flatten := by
  induction groups generalizing ray_idx with
  | nil => simp [rows_by_ray, writeVectorToCSV_loop]
  | cons g rest ih =>
    rw [List.flatten_cons,
      (writeVectorToCSV_loop_group g rest.flatten ray_idx (h g (List.mem_cons_self _ _))).1,
      ih _ (fun x hx => h x (List.mem_cons_of_mem _ hx))]
    simp [rows_by_ray]

/-- Every row of the rays carries a number that is at least the number of the first ray. -/
theorem rows_by_ray_lower (groups : List (List (float4 K))) (ray_idx : Int) :
    ∀ R ∈ rows_by_ray ray_idx groups, ∀ a ∈ R, ray_idx ≤ a.number := by
  induction groups generalizing ray_idx with
  | nil => intro R hR; simp [rows_by_ray] at hR
  | cons g rest ih =>
    intro R hR a ha
    simp only [rows_by_ray, List.mem_cons] at hR
    rcases hR with rfl | hR
    · obtain ⟨e, -, rfl⟩ := List.mem_map.1 ha
      exact le_refl _
    · have := ih _ R hR a ha
      omega

/-- The hypothesis of early termination matters: in a buffer of three rays with `max_trace`
hits each, the first entry of the second ray is not written, the four other entries of the
second ray are written under the number 2, and so is the first entry of the third ray. -/
theorem writeVectorToCSV_full_groups :
    writeVectorToCSV_rows ([hit_entry 1, hit_entry 2, hit_entry 3, hit_entry 4, hit_entry 5,
      hit_entry 6, hit_entry 7, hit_entry 8, hit_entry 9, hit_entry 10,
      hit_entry 11, hit_entry 12, hit_entry 13, hit_entry 14, hit_entry 15] :
        List (float4 ℚ))
      = [CsvRow.write 1 (hit_entry 1), CsvRow.write 1 (hit_entry 2),
         CsvRow.write 1 (hit_entry 3), CsvRow.write 1 (hit_entry 4),
         CsvRow.write 1 (hit_entry 5),
         CsvRow.write 2 (hit_entry 7), CsvRow.write 2 (hit_entry 8),
         CsvRow.write 2 (hit_entry 9), CsvRow.write 2 (hit_entry 10),
         CsvRow.write 2 (hit_entry 11),
         CsvRow.write 3 (hit_entry 13), CsvRow.write 3 (hit_entry 14),
         CsvRow.write 3 (hit_entry 15)] := by
  simp [writeVectorToCSV_rows, writeVectorToCSV_loop, allZeros, FloatVal.eqZero, hit_entry,
    max_trace]

end RayNumbers

end OptixCSP
